import Mathlib

/-!
# HP Omen RGB keyboard driver (`hp-omen.c`)

A shallow embedding of the WMI query layer (`encode_outsize_for_pvsz`,
`hp_wmi_perform_query` and its named wrappers), of the LED brightness
callback `keyboard_set_brightness` and of the set-up path (`setup_leds`,
`hp_wmi_init`), followed by theorems about them.

Conventions of the embedding.

* C `int` values are `Int`; conversions to `u32`, `size_t` (64 bit) and back to
  `int` are explicit reductions modulo `2^32` / `2^64`.
* A memory object (the caller's buffer, an ACPI result buffer) is the list of
  its bytes; the length of the list is the size of the object.  An access that
  leaves the object makes the embedded function return `none`.
* The firmware behind `wmi_evaluate_method` is a function of the calls made so
  far and of the current call; the calls are recorded in `World.calls`.
-/

namespace HpOmen

/-! ## Constants -/

/-- Value of the Linux errno `EINVAL`. -/
def EINVAL : Int := 22

/-- Value of the Linux errno `ENODEV`. -/
def ENODEV : Int := 19

/-- ACPICA object type tag of a buffer object. -/
def ACPI_TYPE_BUFFER : Nat := 3

def HPWMI_RET_WRONG_SIGNATURE : Int := 0x02
def HPWMI_RET_UNKNOWN_COMMAND : Int := 0x03
def HPWMI_RET_UNKNOWN_CMDTYPE : Int := 0x04
def HPWMI_RET_INVALID_PARAMETERS : Int := 0x05

def HPWMI_READ : Nat := 0x01
def HPWMI_WRITE : Nat := 0x02
def HPWMI_ODM : Nat := 0x03
def HPWMI_GM : Nat := 0x20008
def HPWMI_LIGHTING : Nat := 0x20009

def HP_WMI_LIGHTING_GET_PLATFORM_INFO : Int := 0x1
def HP_WMI_LIGHTING_GET_ZONE_COLORS : Int := 0x2
def HP_WMI_LIGHTING_SET_ZONE_COLORS : Int := 0x3
def HP_WMI_LIGHTING_GET_STATUS : Int := 0x4
def HP_WMI_LIGHTING_SET_BRIGHTNESS : Int := 0x5

def LED_COUNT : Nat := 4
def HP_WMI_KEYBOARD_COLOR_DATA_SIZE : Nat := LED_COUNT * 3
def HP_WMI_KEYBOARD_COLOR_MESSAGE_SIZE : Nat := 25 + HP_WMI_KEYBOARD_COLOR_DATA_SIZE

/-! ## Integer conversions of C -/

/-- Conversion of an `int` to `u32`. -/
def to_u32 (x : Int) : Nat := (x % 2 ^ 32).toNat

/-- Conversion of an integer to `size_t` (64 bit). -/
def to_size_t (x : Int) : Nat := (x % 2 ^ 64).toNat

/-- Conversion of an unsigned value to `int`: the low 32 bits, read as two's complement. -/
def to_int (n : Nat) : Int :=
  if n % 2 ^ 32 < 2 ^ 31 then ((n % 2 ^ 32 : Nat) : Int) else ((n % 2 ^ 32 : Nat) : Int) - 2 ^ 32

/-! ## Memory objects -/

/-- Semantics of `memcpy(dst + off, src, n)`: both ranges must lie inside their objects. -/
def memcpy (dst : List Nat) (off : Nat) (src : List Nat) (n : Nat) : Option (List Nat) :=
  if n ≤ src.length ∧ off + n ≤ dst.length then
    some (dst.take off ++ src.take n ++ dst.drop (off + n))
  else none

/-- Semantics of `memset(dst + off, c, n)`: the range must lie inside the object. -/
def memset (dst : List Nat) (off : Int) (c : Nat) (n : Nat) : Option (List Nat) :=
  if 0 ≤ off ∧ off.toNat + n ≤ dst.length then
    some (dst.take off.toNat ++ List.replicate n c ++ dst.drop (off.toNat + n))
  else none

/-- Semantics of `p[i] = v` on a byte object. -/
def store (p : List Nat) (i : Nat) (v : Nat) : Option (List Nat) :=
  if i < p.length then some (p.set i v) else none

/-- Little-endian value of four bytes. -/
def le32 (b0 b1 b2 b3 : Nat) : Nat :=
  b0 % 256 + 256 * (b1 % 256) + 65536 * (b2 % 256) + 16777216 * (b3 % 256)

/-! ## Data model -/

/-- The request `struct bios_args` (four `u32` fields and 128 data bytes, 144 bytes). -/
structure bios_args where
  signature : Nat
  command : Nat
  commandtype : Nat
  datasize : Nat
  data : List Nat
deriving DecidableEq

/-- The part of `union acpi_object` the driver looks at: the type tag and, for a
buffer object, the bytes `buffer.pointer[0 .. buffer.length)`. -/
structure acpi_object where
  type : Nat
  buffer : List Nat
deriving DecidableEq

/-- One invocation `wmi_evaluate_method(HPWMI_BIOS_GUID, 0, method_id, &input, &output)`. -/
structure wmi_call where
  method_id : Int
  input : bios_args
deriving DecidableEq

/-- What the driver does to its environment: the transport calls, oldest first, the
`WARN_ON` traces and the `pr_warn` lines `(query, ret)`. -/
structure World where
  calls : List wmi_call
  warn_on : Nat
  pr_warn : List (Int × Int)
deriving DecidableEq

/-- The firmware transport: the object left in `output.pointer` (`none` for NULL), given the
calls made before and the current call. -/
abbrev Firmware := List wmi_call → wmi_call → Option acpi_object

/-- Outcome of a query: the returned `int`, the caller's buffer afterwards, the world. -/
structure QueryResult where
  ret : Int
  buffer : List Nat
  world : World
deriving DecidableEq

/-- The field `return_code` of the `struct bios_return` at the start of a result buffer
(bytes 4 to 7); the read needs the 8 header bytes to exist. -/
def return_code (obj : acpi_object) : Option Nat :=
  if 8 ≤ obj.buffer.length then
    some (le32 (obj.buffer.getD 4 0) (obj.buffer.getD 5 0) (obj.buffer.getD 6 0)
      (obj.buffer.getD 7 0))
  else none

/-! ## The query layer -/

/-- Map output size to the corresponding WMI method id. -/
def encode_outsize_for_pvsz (outsize : Int) : Int :=
  if outsize > 4096 then -EINVAL
  else if outsize > 1024 then 5
  else if outsize > 128 then 4
  else if outsize > 4 then 3
  else if outsize > 0 then 2
  else 1

/-- The expression `min(outsize, (int)(obj->buffer.length - sizeof(*bios_return)))`, where the
subtraction is done in `size_t`. -/
def actual_outsize (outsize : Int) (length : Nat) : Int :=
  min outsize (to_int (to_size_t ((length : Int) - 8)))

/-- Embedding of `hp_wmi_perform_query`. -/
def hp_wmi_perform_query (T : Firmware) (w : World) (query : Int) (command : Nat)
    (buffer : List Nat) (insize outsize : Int) : Option QueryResult :=
  let mid := encode_outsize_for_pvsz outsize
  if mid < 0 then
    some ⟨mid, buffer, { w with warn_on := w.warn_on + 1 }⟩
  else if to_size_t insize > 128 then
    some ⟨-EINVAL, buffer, { w with warn_on := w.warn_on + 1 }⟩
  else
    match memcpy (List.replicate 128 0) 0 buffer (to_size_t insize) with
    | none => none
    | some data =>
      let args : bios_args :=
        { signature := 0x55434553, command := command, commandtype := to_u32 query,
          datasize := to_u32 insize, data := data }
      let call : wmi_call := ⟨mid, args⟩
      let w1 : World := { w with calls := w.calls ++ [call] }
      match T w.calls call with
      | none => some ⟨-EINVAL, buffer, w1⟩
      | some obj =>
        if obj.type ≠ ACPI_TYPE_BUFFER then some ⟨-EINVAL, buffer, w1⟩
        else
          match return_code obj with
          | none => none
          | some rc =>
            let ret := to_int rc
            if ret ≠ 0 then
              if ret ≠ HPWMI_RET_UNKNOWN_COMMAND ∧ ret ≠ HPWMI_RET_UNKNOWN_CMDTYPE then
                some ⟨ret, buffer, { w1 with pr_warn := w1.pr_warn ++ [(query, ret)] }⟩
              else some ⟨ret, buffer, w1⟩
            else if outsize = 0 then some ⟨ret, buffer, w1⟩
            else
              let n := actual_outsize outsize obj.buffer.length
              match memcpy buffer 0 (obj.buffer.drop 8) (to_size_t n) with
              | none => none
              | some b1 =>
                match memset b1 n 0 (to_size_t (outsize - n)) with
                | none => none
                | some b2 => some ⟨ret, b2, w1⟩

/-- Embedding of `hp_wmi_check_rgb_keyboard_support`; `lightSupport` is the one-byte object
the argument points to. -/
def hp_wmi_check_rgb_keyboard_support (T : Firmware) (w : World) (lightSupport : List Nat) :
    Option QueryResult :=
  match hp_wmi_perform_query T w HP_WMI_LIGHTING_GET_PLATFORM_INFO HPWMI_LIGHTING
      lightSupport 1 1 with
  | none => none
  | some r =>
    match store r.buffer 0 (r.buffer.getD 0 0 &&& 1) with
    | none => none
    | some b1 =>
      if r.ret ≠ 0 then
        match store b1 0 0 with
        | none => none
        | some b2 => some ⟨r.ret, b2, r.world⟩
      else some ⟨r.ret, b1, r.world⟩

/-- Embedding of `hp_wmi_get_keyboard_type`. -/
def hp_wmi_get_keyboard_type (T : Firmware) (w : World) (keyboardType : List Nat) :
    Option QueryResult :=
  hp_wmi_perform_query T w 43 HPWMI_GM keyboardType 1 1

/-- Embedding of `hp_wmi_get_keyboard_status`. -/
def hp_wmi_get_keyboard_status (T : Firmware) (w : World) (keyboardStatus : List Nat) :
    Option QueryResult :=
  hp_wmi_perform_query T w HP_WMI_LIGHTING_GET_STATUS HPWMI_LIGHTING keyboardStatus 1 1

/-- Embedding of `hp_wmi_set_keyboard_brightness`; the local `data` is part of the result. -/
def hp_wmi_set_keyboard_brightness (T : Firmware) (w : World) (value : Nat) :
    Option QueryResult :=
  match store (List.replicate 4 0) 0 (value % 256) with
  | none => none
  | some data =>
    hp_wmi_perform_query T w HP_WMI_LIGHTING_SET_BRIGHTNESS HPWMI_LIGHTING data 4 1

/-- Embedding of `hp_wmi_keyboard_get_colors`. -/
def hp_wmi_keyboard_get_colors (T : Firmware) (w : World) (out : List Nat) :
    Option QueryResult :=
  hp_wmi_perform_query T w HP_WMI_LIGHTING_GET_ZONE_COLORS HPWMI_LIGHTING out 1
    (HP_WMI_KEYBOARD_COLOR_MESSAGE_SIZE : Nat)

/-- Embedding of `hp_wmi_keyboard_set_colors`. -/
def hp_wmi_keyboard_set_colors (T : Firmware) (w : World) (inp : List Nat) :
    Option QueryResult :=
  hp_wmi_perform_query T w HP_WMI_LIGHTING_SET_ZONE_COLORS HPWMI_LIGHTING inp
    (HP_WMI_KEYBOARD_COLOR_MESSAGE_SIZE : Nat) 1

/-! ## The LED model -/

/-- The kernel's `struct mc_subled` (all fields `unsigned int`). -/
structure mc_subled where
  color_index : Nat
  brightness : Nat
  intensity : Nat
  channel : Nat
deriving DecidableEq

/-- The fields of `struct led_classdev` the driver sets; `brightness_set_blocking` tells
whether `keyboard_set_brightness` is bound as the callback. -/
structure led_classdev where
  name : Option String
  brightness : Nat
  max_brightness : Nat
  brightness_set_blocking : Bool
deriving DecidableEq

/-- The kernel's `struct led_classdev_mc`; `subled_info` points into `keyboard_subleds`
(the index of its first element) or is NULL (`none`). -/
structure led_classdev_mc where
  led_cdev : led_classdev
  num_colors : Nat
  subled_info : Option Nat
deriving DecidableEq

/-- The global variables of the driver. -/
structure Globals where
  keyboard_led_support : Nat
  keyboard_leds : List led_classdev_mc
  keyboard_subleds : List mc_subled
deriving DecidableEq

/-- The host function `led_mc_calc_color_components(&keyboard_leds[z], brightness)`, which
belongs to the LED subsystem: its effect on the globals, for zone `z`. -/
abbrev BrightnessMapping := Globals → Nat → Nat → Globals

/-- The read `keyboard_leds[i].subled_info[c].brightness`. -/
def subled_brightness (g : Globals) (i c : Nat) : Option Nat :=
  match g.keyboard_leds[i]? with
  | none => none
  | some led =>
    match led.subled_info with
    | none => none
    | some off =>
      match g.keyboard_subleds[off + c]? with
      | none => none
      | some s => some s.brightness

/-- One iteration of the loop of `keyboard_set_brightness`: the three stores of zone `i`,
each value cast to `u8`. -/
def update_zone (g : Globals) (color_buffer : List Nat) (i : Nat) : Option (List Nat) :=
  match subled_brightness g i 0 with
  | none => none
  | some r =>
    match store color_buffer (25 + i * 3 + 0) (r % 256) with
    | none => none
    | some b0 =>
      match subled_brightness g i 1 with
      | none => none
      | some gr =>
        match store b0 (25 + i * 3 + 1) (gr % 256) with
        | none => none
        | some b1 =>
          match subled_brightness g i 2 with
          | none => none
          | some bl => store b1 (25 + i * 3 + 2) (bl % 256)

/-- The loop `for (i = 0; i < LED_COUNT; i++)` of `keyboard_set_brightness`, from `i`, with
`n` iterations left. -/
def update_leds (g : Globals) : Nat → Nat → List Nat → Option (List Nat)
  | _, 0, color_buffer => some color_buffer
  | i, n + 1, color_buffer =>
    match update_zone g color_buffer i with
    | none => none
    | some b => update_leds g (i + 1) n b

/-- Outcome of the brightness callback: the returned `int`, the globals and the world. -/
structure CallbackResult where
  ret : Int
  globals : Globals
  world : World
deriving DecidableEq

/-- Embedding of `keyboard_set_brightness` for the LED of zone `z`
(`led_cdev = &keyboard_leds[z].led_cdev`). The wait `usleep_range(5000, 6000)` between the
read and the loop changes nothing of the state kept here. -/
def keyboard_set_brightness (mapping : BrightnessMapping) (T : Firmware) (w : World)
    (g : Globals) (z : Nat) (brightness : Nat) : Option CallbackResult :=
  let color_buffer := List.replicate HP_WMI_KEYBOARD_COLOR_MESSAGE_SIZE 0
  let g1 := mapping g z brightness
  match hp_wmi_keyboard_get_colors T w color_buffer with
  | none => none
  | some r =>
    if r.ret ≠ 0 then some ⟨r.ret, g1, r.world⟩
    else
      match update_leds g1 0 LED_COUNT r.buffer with
      | none => none
      | some b =>
        match hp_wmi_keyboard_set_colors T r.world b with
        | none => none
        | some r2 => some ⟨r2.ret, g1, r2.world⟩

/-! ## Requests and responses named in the statements -/

/-- The request `hp_wmi_perform_query` builds for in-range arguments: the payload followed by
zero bytes up to 128. -/
def request (query : Nat) (command : Nat) (payload : List Nat) : bios_args :=
  { signature := 0x55434553, command := command, commandtype := query,
    datasize := payload.length, data := payload ++ List.replicate (128 - payload.length) 0 }

/-- The transport call of `hp_wmi_keyboard_get_colors` on a buffer starting with byte `b`. -/
def get_colors_call (b : Nat) : wmi_call := ⟨3, request 2 HPWMI_LIGHTING [b]⟩

/-- The transport call of `hp_wmi_keyboard_set_colors` on the 37-byte message `W`. -/
def set_colors_call (W : List Nat) : wmi_call := ⟨2, request 3 HPWMI_LIGHTING W⟩

/-- A result object the driver can decode: when it is a buffer, it holds the 8 header
bytes and its payload is shorter than `2^31` bytes. -/
def well_formed_result (o : Option acpi_object) : Prop :=
  ∀ obj, o = some obj → obj.type = ACPI_TYPE_BUFFER →
    8 ≤ obj.buffer.length ∧ obj.buffer.length < 2 ^ 31 + 8

/-- A transport stub that echoes the request payload `data[0 .. datasize)` after a header
with signature bytes `s0 s1 s2 s3` and status 0. -/
def echo_stub (s0 s1 s2 s3 : Nat) : Firmware :=
  fun _ c => some ⟨ACPI_TYPE_BUFFER,
    [s0, s1, s2, s3, 0, 0, 0, 0] ++ c.input.data.take c.input.datasize⟩

/-- A transport stub that answers every call with the same object. -/
def const_stub (o : Option acpi_object) : Firmware := fun _ _ => o

/-- The mapping of the Linux multicolor LED class, the host of this driver: every subled of
zone `z` gets `brightness * intensity / max_brightness`. -/
def led_mc_calc_color_components : BrightnessMapping := fun g z brightness =>
  match g.keyboard_leds[z]? with
  | none => g
  | some led =>
    match led.subled_info with
    | none => g
    | some off =>
      let step : List mc_subled → Nat → List mc_subled := fun subs i =>
        match subs[off + i]? with
        | none => subs
        | some s =>
          subs.set (off + i)
            { s with brightness :=
                (brightness * s.intensity / led.led_cdev.max_brightness) % 2 ^ 32 }
      { g with keyboard_subleds := (List.range led.num_colors).foldl step g.keyboard_subleds }

/-! ## A concrete scenario

Scenario B of the specification: the firmware holds a 37-byte colour message with known
triples in the four zones, and the brightness of zone 2 is set. -/

/-- The colour message held by the firmware: 25 header bytes, then zone 0 = (10, 20, 30),
zone 1 = (40, 50, 60), zone 2 = (1, 2, 3), zone 3 = (70, 80, 90). -/
def scenario_message : List Nat :=
  [100, 101, 102, 103, 104, 105, 106, 107, 108, 109, 110, 111, 112, 113, 114, 115, 116, 117,
   118, 119, 120, 121, 122, 123, 124, 10, 20, 30, 40, 50, 60, 1, 2, 3, 70, 80, 90]

/-- A firmware that answers the colour read (command type 2) with `scenario_message` and
every other call with one zero byte, both with status 0. -/
def scenario_firmware : Firmware := fun _ c =>
  if c.input.commandtype = 2 then
    some ⟨ACPI_TYPE_BUFFER, [0, 0, 0, 0, 0, 0, 0, 0] ++ scenario_message⟩
  else some ⟨ACPI_TYPE_BUFFER, [0, 0, 0, 0, 0, 0, 0, 0, 0]⟩

/-- The globals as `setup_leds` leaves them, with the given subled brightness values; zone 2
has intensities (255, 0, 0), the other zones intensity 0. -/
def scenario_globals (mirror : List Nat) : Globals :=
  { keyboard_led_support := 1,
    keyboard_leds :=
      [⟨⟨some "keyboard:rgb:zone0", 255, 255, true⟩, 3, some 0⟩,
       ⟨⟨some "keyboard:rgb:zone1", 255, 255, true⟩, 3, some 3⟩,
       ⟨⟨some "keyboard:rgb:zone2", 255, 255, true⟩, 3, some 6⟩,
       ⟨⟨some "keyboard:rgb:zone3", 255, 255, true⟩, 3, some 9⟩],
    keyboard_subleds :=
      (List.range 12).map fun k =>
        ⟨k % 3 + 1, mirror.getD k 0, if k = 6 then 255 else 0, 0⟩ }

/-- The mirror values after the host mapping in the scenario: those of the globals, with
zone 2 recomputed to (128, 0, 0). -/
def scenario_mirror (mirror : List Nat) (i c : Nat) : Nat :=
  if i = 2 then (if c = 0 then 128 else 0) else mirror.getD (3 * i + c) 0

/-! ## Definitions used to state the lemmas and theorems -/

/-- The transport call `hp_wmi_perform_query` makes for in-range sizes. -/
def query_call (query : Int) (command : Nat) (buffer : List Nat) (insize outsize : Int) :
    wmi_call :=
  ⟨encode_outsize_for_pvsz outsize,
   { signature := 0x55434553, command := command, commandtype := to_u32 query,
     datasize := insize.toNat,
     data := buffer.take insize.toNat ++ List.replicate (128 - insize.toNat) 0 }⟩

/-- The world after the transport call of `query_call`. -/
def after_call (w : World) (c : wmi_call) : World := { w with calls := w.calls ++ [c] }

/-- The part of `hp_wmi_perform_query` after `wmi_evaluate_method` (from `obj = output.pointer`
on), as a function of the transport's answer `o` and of the world `w1` after the call. It is
the tail of the definition above, named so that lemmas can be stated about it. -/
def query_tail (o : Option acpi_object) (w1 : World) (query : Int) (buffer : List Nat)
    (outsize : Int) : Option QueryResult :=
  match o with
  | none => some ⟨-EINVAL, buffer, w1⟩
  | some obj =>
    if obj.type ≠ ACPI_TYPE_BUFFER then some ⟨-EINVAL, buffer, w1⟩
    else
      match return_code obj with
      | none => none
      | some rc =>
        let ret := to_int rc
        if ret ≠ 0 then
          if ret ≠ HPWMI_RET_UNKNOWN_COMMAND ∧ ret ≠ HPWMI_RET_UNKNOWN_CMDTYPE then
            some ⟨ret, buffer, { w1 with pr_warn := w1.pr_warn ++ [(query, ret)] }⟩
          else some ⟨ret, buffer, w1⟩
        else if outsize = 0 then some ⟨ret, buffer, w1⟩
        else
          let n := actual_outsize outsize obj.buffer.length
          match memcpy buffer 0 (obj.buffer.drop 8) (to_size_t n) with
          | none => none
          | some b1 =>
            match memset b1 n 0 (to_size_t (outsize - n)) with
            | none => none
            | some b2 => some ⟨ret, b2, w1⟩

/-- The transport call of `hp_wmi_check_rgb_keyboard_support` when the flag holds `b0`. -/
def platform_info_call (b0 : Nat) : wmi_call :=
  query_call HP_WMI_LIGHTING_GET_PLATFORM_INFO HPWMI_LIGHTING [b0] 1 1

/-- The three stores of zone `i`, with the mirror values `m i c`. -/
def write_zone (cb : List Nat) (i : Nat) (m : Nat → Nat → Nat) : List Nat :=
  ((cb.set (25 + i * 3 + 0) (m i 0 % 256)).set (25 + i * 3 + 1) (m i 1 % 256)).set
    (25 + i * 3 + 2) (m i 2 % 256)

/-- The message after the whole loop of `keyboard_set_brightness`. -/
def written_message (M : List Nat) (m : Nat → Nat → Nat) : List Nat :=
  write_zone (write_zone (write_zone (write_zone M 0 m) 1 m) 2 m) 3 m

/-- The transport call of `hp_wmi_set_keyboard_brightness` for the byte `v`. -/
def set_brightness_call (v : Nat) : wmi_call := ⟨2, request 5 HPWMI_LIGHTING [v, 0, 0, 0]⟩

/-- The four bytes of a `u32` in memory (little endian). -/
def u32_bytes (n : Nat) : List Nat :=
  [n % 256, n / 256 % 256, n / 65536 % 256, n / 16777216 % 256]

/-- The bytes of a `struct bios_args` in memory, which `input = { sizeof(struct bios_args),
&args }` hands to the transport: four `u32` fields, then the data bytes, without padding. -/
def bios_args_bytes (a : bios_args) : List Nat :=
  u32_bytes a.signature ++ u32_bytes a.command ++ u32_bytes a.commandtype
    ++ u32_bytes a.datasize ++ a.data

/-! ## Set-up of the LEDs and module initialisation -/

/-- Colour identifiers of the LED subsystem (`dt-bindings/leds/common.h`). -/
def LED_COLOR_ID_RED : Nat := 1
def LED_COLOR_ID_GREEN : Nat := 2
def LED_COLOR_ID_BLUE : Nat := 3

/-- The host function `led_classdev_multicolor_register(NULL, &keyboard_leds[i])`, which
belongs to the LED subsystem: its return value for zone `i`; 0 means the zone is registered. -/
abbrev Registration := Nat → Int

/-- An assignment `subs[k].field = value` on the array of subleds (inside the array). -/
def update_subled (subs : List mc_subled) (k : Nat) (f : mc_subled → mc_subled) :
    List mc_subled :=
  match subs[k]? with
  | none => subs
  | some s => subs.set k (f s)

/-- The assignments of one iteration of the loop of `setup_leds`, for zone `i`, before the
registration; they need `keyboard_leds[i]`, `keyboard_subleds[i * 3 + 2]` and
`led_data[25 + i * 3 + 2]` to exist. -/
def setup_zone (g : Globals) (led_data : List Nat) (i : Nat) : Option Globals :=
  match g.keyboard_leds[i]? with
  | none => none
  | some led =>
    if i * 3 + 2 < g.keyboard_subleds.length ∧ 25 + i * 3 + 2 < led_data.length then
      let subs := g.keyboard_subleds
      let subs := update_subled subs (i * 3 + 0) fun s => { s with color_index := LED_COLOR_ID_RED }
      let subs := update_subled subs (i * 3 + 1) fun s =>
        { s with color_index := LED_COLOR_ID_GREEN }
      let subs := update_subled subs (i * 3 + 2) fun s => { s with color_index := LED_COLOR_ID_BLUE }
      let subs := update_subled subs (i * 3 + 0) fun s =>
        { s with brightness := led_data.getD (25 + i * 3 + 0) 0 }
      let subs := update_subled subs (i * 3 + 1) fun s =>
        { s with brightness := led_data.getD (25 + i * 3 + 1) 0 }
      let subs := update_subled subs (i * 3 + 2) fun s =>
        { s with brightness := led_data.getD (25 + i * 3 + 2) 0 }
      some
        { g with
          keyboard_leds := g.keyboard_leds.set i
            { led with
              subled_info := some (i * 3)
              num_colors := 3
              led_cdev :=
                { name := some ("keyboard:rgb:zone" ++ toString i)
                  brightness := 255
                  max_brightness := 255
                  brightness_set_blocking := true } }
          keyboard_subleds := subs }
    else none

/-- Outcome of `setup_leds` and of `hp_wmi_init`: the returned `int`, the globals, the world
and the zones registered with the LED subsystem, oldest first. -/
structure DriverResult where
  ret : Int
  globals : Globals
  world : World
  registered : List Nat
deriving DecidableEq

/-- The loop `for (i = 0; i < LED_COUNT; i++)` of `setup_leds`, from `i`, with `n` iterations
left: the assignments of the zone, its registration, and the return on a failed one. -/
def setup_leds_loop (register : Registration) (led_data : List Nat) :
    Nat → Nat → Globals → List Nat → Option (Int × Globals × List Nat)
  | _, 0, g, registered => some (0, g, registered)
  | i, n + 1, g, registered =>
    match setup_zone g led_data i with
    | none => none
    | some g1 =>
      let rc := register i
      if rc ≠ 0 then some (rc, g1, registered)
      else setup_leds_loop register led_data (i + 1) n g1 (registered ++ [i])

/-- Embedding of `setup_leds`; `led_data` is what the uninitialised local array holds on
entry and `registered` the zones registered so far. -/
def setup_leds (register : Registration) (T : Firmware) (w : World) (g : Globals)
    (registered : List Nat) (led_data : List Nat) : Option DriverResult :=
  match hp_wmi_keyboard_get_colors T w led_data with
  | none => none
  | some r =>
    if r.ret ≠ 0 then some ⟨r.ret, g, r.world, registered⟩
    else
      match setup_leds_loop register r.buffer 0 LED_COUNT g registered with
      | none => none
      | some (rc, g1, regs) => some ⟨rc, g1, r.world, regs⟩

/-- Embedding of `hp_wmi_init`; `has_guid` is the answer of `wmi_has_guid(HPWMI_BIOS_GUID)`.
No zone is registered on entry. The `pr_info` lines are not kept, and the value returned by
`setup_leds` is dropped, as in the source. -/
def hp_wmi_init (has_guid : Bool) (register : Registration) (T : Firmware) (w : World)
    (g : Globals) (led_data : List Nat) : Option DriverResult :=
  if !has_guid then some ⟨-ENODEV, g, w, []⟩
  else
    match hp_wmi_check_rgb_keyboard_support T w [g.keyboard_led_support] with
    | none => none
    | some p =>
      let g1 : Globals := { g with keyboard_led_support := p.buffer.getD 0 0 }
      if g1.keyboard_led_support ≠ 0 then
        match setup_leds register T p.world g1 [] led_data with
        | none => none
        | some s => some ⟨p.ret, s.globals, s.world, s.registered⟩
      else some ⟨p.ret, g1, p.world, []⟩

/-- A firmware with lighting support: the platform-info query (command type 1) is answered
with the byte 1, the colour read (command type 2) with `scenario_message`, every other call
with one zero byte, all with status 0. -/
def scenario_firmware_rgb : Firmware := fun _ c =>
  if c.input.commandtype = 1 then some ⟨ACPI_TYPE_BUFFER, [0, 0, 0, 0, 0, 0, 0, 0, 1]⟩
  else if c.input.commandtype = 2 then
    some ⟨ACPI_TYPE_BUFFER, [0, 0, 0, 0, 0, 0, 0, 0] ++ scenario_message⟩
  else some ⟨ACPI_TYPE_BUFFER, [0, 0, 0, 0, 0, 0, 0, 0, 0]⟩

/-- The globals at module load: everything zero, `subled_info` NULL. -/
def initial_globals : Globals :=
  { keyboard_led_support := 0,
    keyboard_leds := List.replicate 4 ⟨⟨none, 0, 0, false⟩, 0, none⟩,
    keyboard_subleds := List.replicate 12 ⟨0, 0, 0, 0⟩ }

/-- A registration that fails with `-ENOMEM` for zone `k` and succeeds for the others. -/
def failing_registration (k : Nat) : Registration := fun i => if i = k then -12 else 0

/-! ## Helper lemmas: integer conversions -/

theorem to_size_t_of_nonneg {x : Int} (h0 : 0 ≤ x) (h1 : x < 2 ^ 64) :
    to_size_t x = x.toNat := by
  unfold to_size_t
  rw [Int.emod_eq_of_lt h0 h1]

theorem to_size_t_of_neg {x : Int} (h0 : x < 0) (h1 : -(2 ^ 63) ≤ x) :
    to_size_t x = (x + 2 ^ 64).toNat := by
  unfold to_size_t
  have h : x % 2 ^ 64 = x + 2 ^ 64 := by
    rw [← Int.add_emod_self]
    exact Int.emod_eq_of_lt (by omega) (by omega)
  rw [h]

theorem to_u32_of_nonneg {x : Int} (h0 : 0 ≤ x) (h1 : x < 2 ^ 32) :
    to_u32 x = x.toNat := by
  unfold to_u32
  rw [Int.emod_eq_of_lt h0 h1]

theorem encode_outsize_nonneg {outsize : Int} (h : outsize ≤ 4096) :
    ¬ encode_outsize_for_pvsz outsize < 0 := by
  unfold encode_outsize_for_pvsz
  split_ifs <;> omega

theorem memcpy_args (buffer : List Nat) (n : Nat) (h1 : n ≤ buffer.length) (h2 : n ≤ 128) :
    memcpy (List.replicate 128 0) 0 buffer n
      = some (buffer.take n ++ List.replicate (128 - n) 0) := by
  unfold memcpy
  rw [if_pos ⟨h1, by rw [List.length_replicate]; omega⟩, List.take_zero, List.nil_append,
    Nat.zero_add, List.drop_replicate]

/-- For sizes in range the query is: build `query_call`, hand it to the transport, decode. -/
theorem perform_query_eq (T : Firmware) (w : World) (query : Int) (command : Nat)
    (buffer : List Nat) (insize outsize : Int)
    (h0 : 0 ≤ insize) (hin : insize ≤ 128) (hbuf : insize ≤ buffer.length)
    (hout : outsize ≤ 4096) :
    hp_wmi_perform_query T w query command buffer insize outsize
      = query_tail (T w.calls (query_call query command buffer insize outsize))
          (after_call w (query_call query command buffer insize outsize)) query buffer
          outsize := by
  have hs : to_size_t insize = insize.toNat := to_size_t_of_nonneg h0 (by omega)
  have hu : to_u32 insize = insize.toNat := to_u32_of_nonneg h0 (by omega)
  unfold hp_wmi_perform_query
  simp only []
  rw [if_neg (encode_outsize_nonneg hout), if_neg (by rw [hs]; omega), hs,
    memcpy_args buffer insize.toNat (by omega) (by omega)]
  simp only [hu]
  rfl

theorem to_int_of_lt {n : Nat} (h : n < 2 ^ 31) : to_int n = (n : Int) := by
  unfold to_int
  have h1 : n % 2 ^ 32 = n := Nat.mod_eq_of_lt (by omega)
  rw [h1, if_pos h]

theorem actual_outsize_eq (outsize : Int) (L : Nat) (h8 : 8 ≤ L) (hL : L < 2 ^ 31 + 8) :
    actual_outsize outsize L = min outsize ((L - 8 : Nat) : Int) := by
  unfold actual_outsize
  rw [to_size_t_of_nonneg (by omega) (by omega)]
  have : ((L : Int) - 8).toNat = L - 8 := by omega
  rw [this, to_int_of_lt (by omega)]

theorem le32_lt (b0 b1 b2 b3 : Nat) : le32 b0 b1 b2 b3 < 2 ^ 32 := by
  unfold le32
  omega

theorem to_int_eq_zero {n : Nat} (h : n < 2 ^ 32) : to_int n = 0 ↔ n = 0 := by
  unfold to_int
  have h1 : n % 2 ^ 32 = n := Nat.mod_eq_of_lt h
  rw [h1]
  split_ifs <;> omega

theorem return_code_lt {obj : acpi_object} {rc : Nat} (h : return_code obj = some rc) :
    rc < 2 ^ 32 := by
  unfold return_code at h
  split_ifs at h
  simp only [Option.some.injEq] at h
  rw [← h]
  exact le32_lt _ _ _ _

/-- Decoding a result whose status is not zero: the status is returned and nothing is
copied. -/
theorem query_tail_status (obj : acpi_object) (w1 : World) (query : Int) (buffer : List Nat)
    (outsize : Int) (rc : Nat) (ht : obj.type = ACPI_TYPE_BUFFER)
    (hrc : return_code obj = some rc) (hne : rc ≠ 0) :
    ∃ r, query_tail (some obj) w1 query buffer outsize = some r ∧ r.ret = to_int rc
      ∧ r.ret ≠ 0 ∧ r.buffer = buffer ∧ r.world.calls = w1.calls := by
  have hr : to_int rc ≠ 0 := fun h => hne ((to_int_eq_zero (return_code_lt hrc)).1 h)
  unfold query_tail
  simp only []
  rw [if_neg (by simp [ht])]
  simp only [hrc]
  rw [if_pos hr]
  split_ifs
  · exact ⟨_, rfl, rfl, hr, rfl, rfl⟩
  · exact ⟨_, rfl, rfl, hr, rfl, rfl⟩

/-- Decoding a result whose status is zero: the payload is copied and the rest of the
requested range is zero-filled. -/
theorem query_tail_success (obj : acpi_object) (w1 : World) (query : Int) (buffer : List Nat)
    (outsize : Int) (ht : obj.type = ACPI_TYPE_BUFFER)
    (hrc : return_code obj = some 0) (h8 : 8 ≤ obj.buffer.length)
    (hL : obj.buffer.length < 2 ^ 31 + 8) (ho : 0 ≤ outsize) (hout : outsize ≤ 4096)
    (hbuf : outsize ≤ buffer.length) :
    query_tail (some obj) w1 query buffer outsize
      = some ⟨0,
          (obj.buffer.drop 8).take (min outsize.toNat (obj.buffer.length - 8))
            ++ List.replicate (outsize.toNat - min outsize.toNat (obj.buffer.length - 8)) 0
            ++ buffer.drop outsize.toNat, w1⟩ := by
  unfold query_tail
  have hz : ¬ to_int 0 ≠ 0 := by decide
  simp only []
  rw [if_neg (by simp [ht])]
  simp only [hrc]
  rw [if_neg hz]
  by_cases h0 : outsize = 0
  · subst h0
    have hz0 : to_int 0 = 0 := by decide
    simp [hz0]
  · rw [if_neg h0, actual_outsize_eq outsize _ h8 hL]
    obtain ⟨n, rfl⟩ := Int.eq_ofNat_of_zero_le ho
    have hmin : min (n : Int) ((obj.buffer.length - 8 : Nat) : Int)
        = ((min n (obj.buffer.length - 8) : Nat) : Int) := by omega
    rw [hmin]
    set k := min n (obj.buffer.length - 8) with hk
    have hkn : k ≤ n := by omega
    have hnb : n ≤ buffer.length := by omega
    rw [to_size_t_of_nonneg (by omega) (by omega), to_size_t_of_nonneg (by omega) (by omega)]
    have e1 : ((k : Nat) : Int).toNat = k := by omega
    have e2 : ((n : Int) - (k : Int)).toNat = n - k := by omega
    have e3 : ((n : Nat) : Int).toNat = n := by omega
    rw [e1, e2, e3]
    have hlen : ((obj.buffer.drop 8).take k).length = k := by
      rw [List.length_take, List.length_drop]; omega
    unfold memcpy
    rw [if_pos ⟨by rw [List.length_drop]; omega, by omega⟩]
    simp only [List.take_zero, List.nil_append, Nat.zero_add]
    unfold memset
    rw [if_pos ⟨by omega, by
      rw [e1, List.length_append, hlen, List.length_drop]; omega⟩]
    simp only [e1]
    have t1 : ((obj.buffer.drop 8).take k ++ buffer.drop k).take k = (obj.buffer.drop 8).take k := by
      rw [List.take_append_of_le_length (by omega), List.take_of_length_le (by omega)]
    have t2 : ((obj.buffer.drop 8).take k ++ buffer.drop k).drop (k + (n - k))
        = buffer.drop n := by
      rw [List.drop_append_eq_append_drop, List.drop_of_length_le (by omega), hlen,
        List.drop_drop, List.nil_append]
      congr 1
      omega
    have hz0 : to_int 0 = 0 := by decide
    rw [t1, t2, hz0]

theorem to_size_t_neg_gt {x : Int} (h0 : x < 0) (h1 : -2147483648 ≤ x) :
    to_size_t x > 128 := by
  rw [to_size_t_of_neg h0 (by omega)]
  omega

/-- A negative `insize` is rejected before the buffer is read or the transport is called. -/
theorem perform_query_insize_negative_eq (T : Firmware) (w : World) (query : Int)
    (command : Nat) (buffer : List Nat) (insize outsize : Int)
    (h0 : insize < 0) (h1 : -2147483648 ≤ insize) (hout : outsize ≤ 4096) :
    hp_wmi_perform_query T w query command buffer insize outsize
      = some ⟨-EINVAL, buffer, { w with warn_on := w.warn_on + 1 }⟩ := by
  unfold hp_wmi_perform_query
  simp only []
  rw [if_neg (encode_outsize_nonneg hout), if_pos (to_size_t_neg_gt h0 h1)]

/-- One requested byte: the first payload byte, or 0 when the result has no payload. -/
theorem one_byte_payload (l : List Nat) (b0 : Nat) :
    (l.drop 8).take (min 1 (l.length - 8)) ++ List.replicate (1 - min 1 (l.length - 8)) 0
      ++ List.drop 1 [b0] = [l.getD 8 0] := by
  have hg : l.getD 8 0 = (l.drop 8).getD 0 0 := by
    simp [List.getD_eq_getElem?_getD, List.getElem?_drop]
  have hl : (l.drop 8).length = l.length - 8 := List.length_drop 8 l
  rw [hg]
  cases hd : l.drop 8 with
  | nil =>
    rw [hd] at hl
    have : l.length - 8 = 0 := by simpa using hl.symm
    rw [this]
    rfl
  | cons x t =>
    rw [hd] at hl
    have : min 1 (l.length - 8) = 1 := by
      rw [← hl]; simp
    rw [this]
    rfl

theorem memcpy_length {dst src b : List Nat} {off n : Nat}
    (h : memcpy dst off src n = some b) : b.length = dst.length := by
  unfold memcpy at h
  split_ifs at h with hc
  rw [← Option.some.inj h]
  simp only [List.length_append, List.length_take, List.length_drop]
  omega

theorem memset_length {dst b : List Nat} {off : Int} {c n : Nat}
    (h : memset dst off c n = some b) : b.length = dst.length := by
  unfold memset at h
  split_ifs at h with hc
  rw [← Option.some.inj h]
  simp only [List.length_append, List.length_take, List.length_drop, List.length_replicate]
  omega

/-- Whatever the transport answered, decoding keeps the size of the caller's buffer and adds
no transport call; when it returns 0 it leaves the world as it was after the call. -/
theorem query_tail_frame {o : Option acpi_object} {w1 : World} {query : Int}
    {buffer : List Nat} {outsize : Int} {r : QueryResult}
    (h : query_tail o w1 query buffer outsize = some r) :
    r.buffer.length = buffer.length ∧ r.world.calls = w1.calls ∧ (r.ret = 0 → r.world = w1) := by
  unfold query_tail at h
  have hne : -EINVAL ≠ 0 := by decide
  cases o with
  | none =>
    simp only [Option.some.injEq] at h
    subst h
    exact ⟨rfl, rfl, fun h0 => absurd h0 hne⟩
  | some obj =>
    simp only [] at h
    by_cases h1 : obj.type ≠ ACPI_TYPE_BUFFER
    · rw [if_pos h1] at h
      simp only [Option.some.injEq] at h
      subst h
      exact ⟨rfl, rfl, fun h0 => absurd h0 hne⟩
    · rw [if_neg h1] at h
      cases hrc : return_code obj with
      | none => rw [hrc] at h; exact absurd h (by simp)
      | some rc =>
        rw [hrc] at h
        simp only [] at h
        by_cases h2 : to_int rc ≠ 0
        · rw [if_pos h2] at h
          split_ifs at h
          · simp only [Option.some.injEq] at h
            subst h
            exact ⟨rfl, rfl, fun h0 => absurd h0 h2⟩
          · simp only [Option.some.injEq] at h
            subst h
            exact ⟨rfl, rfl, fun h0 => absurd h0 h2⟩
        · rw [if_neg h2] at h
          by_cases h3 : outsize = 0
          · rw [if_pos h3] at h
            simp only [Option.some.injEq] at h
            subst h
            exact ⟨rfl, rfl, fun _ => rfl⟩
          · rw [if_neg h3] at h
            cases hm : memcpy buffer 0 (List.drop 8 obj.buffer)
                (to_size_t (actual_outsize outsize obj.buffer.length)) with
            | none => rw [hm] at h; exact absurd h (by simp)
            | some b1 =>
              rw [hm] at h
              simp only [] at h
              cases hs : memset b1 (actual_outsize outsize obj.buffer.length) 0
                  (to_size_t (outsize - actual_outsize outsize obj.buffer.length)) with
              | none => rw [hs] at h; exact absurd h (by simp)
              | some b2 =>
                rw [hs] at h
                simp only [Option.some.injEq] at h
                subst h
                exact ⟨(memset_length hs).trans (memcpy_length hm), rfl, fun _ => rfl⟩

theorem write_zone_length (cb : List Nat) (i : Nat) (m : Nat → Nat → Nat) :
    (write_zone cb i m).length = cb.length := by
  simp [write_zone]

theorem written_message_length (M : List Nat) (m : Nat → Nat → Nat) :
    (written_message M m).length = M.length := by
  simp [written_message, write_zone_length]

theorem update_zone_eq (g : Globals) (cb : List Nat) (i : Nat) (m : Nat → Nat → Nat)
    (hlen : 25 + i * 3 + 2 < cb.length)
    (hm : ∀ c, c < 3 → subled_brightness g i c = some (m i c)) :
    update_zone g cb i = some (write_zone cb i m) := by
  unfold update_zone store
  rw [hm 0 (by omega), hm 1 (by omega), hm 2 (by omega)]
  simp only []
  rw [if_pos (by omega)]
  simp only []
  rw [if_pos (by rw [List.length_set]; omega)]
  simp only []
  rw [if_pos (by rw [List.length_set, List.length_set]; omega)]
  rfl

theorem update_leds_eq (g : Globals) (M : List Nat) (m : Nat → Nat → Nat)
    (hlen : M.length = 37)
    (hm : ∀ i, i < 4 → ∀ c, c < 3 → subled_brightness g i c = some (m i c)) :
    update_leds g 0 LED_COUNT M = some (written_message M m) := by
  have h0 := update_zone_eq g M 0 m (by omega) (hm 0 (by omega))
  have h1 := update_zone_eq g (write_zone M 0 m) 1 m
    (by rw [write_zone_length]; omega) (hm 1 (by omega))
  have h2 := update_zone_eq g (write_zone (write_zone M 0 m) 1 m) 2 m
    (by rw [write_zone_length, write_zone_length]; omega) (hm 2 (by omega))
  have h3 := update_zone_eq g (write_zone (write_zone (write_zone M 0 m) 1 m) 2 m) 3 m
    (by rw [write_zone_length, write_zone_length, write_zone_length]; omega) (hm 3 (by omega))
  show update_leds g 0 4 M = _
  simp only [update_leds, h0, h1, h2, h3]
  rfl

theorem written_message_header (M : List Nat) (m : Nat → Nat → Nat) (j : Nat) (hj : j < 25) :
    (written_message M m)[j]? = M[j]? := by
  simp only [written_message, write_zone]
  repeat rw [List.getElem?_set_ne (by omega)]

theorem written_message_take (M : List Nat) (m : Nat → Nat → Nat) :
    (written_message M m).take 25 = M.take 25 := by
  apply List.ext_getElem?
  intro j
  by_cases hj : j < 25
  · rw [List.getElem?_take_of_lt hj, List.getElem?_take_of_lt hj, written_message_header M m j hj]
  · rw [List.getElem?_take_eq_none (by omega), List.getElem?_take_eq_none (by omega)]

theorem written_message_zone (M : List Nat) (m : Nat → Nat → Nat) (hlen : M.length = 37)
    (i c : Nat) (hi : i < 4) (hc : c < 3) :
    (written_message M m)[25 + 3 * i + c]? = some (m i c % 256) := by
  simp only [written_message, write_zone]
  interval_cases i <;> interval_cases c <;>
    simp [List.getElem?_set, hlen]

/-- Decoding a result the driver can decode always returns. -/
theorem query_tail_defined (o : Option acpi_object) (w1 : World) (query : Int)
    (buffer : List Nat) (outsize : Int) (hwf : well_formed_result o) (ho : 0 ≤ outsize)
    (hout : outsize ≤ 4096) (hbuf : outsize ≤ buffer.length) :
    ∃ r, query_tail o w1 query buffer outsize = some r := by
  cases o with
  | none => exact ⟨_, rfl⟩
  | some obj =>
    by_cases hty : obj.type = ACPI_TYPE_BUFFER
    · obtain ⟨h8, hL⟩ := hwf obj rfl hty
      have hrc : ∃ rc, return_code obj = some rc := by
        unfold return_code
        rw [if_pos h8]
        exact ⟨_, rfl⟩
      obtain ⟨rc, hrc⟩ := hrc
      by_cases h0 : rc = 0
      · subst h0
        exact ⟨_, query_tail_success obj w1 query buffer outsize hty hrc h8 hL ho hout hbuf⟩
      · obtain ⟨r, hr, _⟩ := query_tail_status obj w1 query buffer outsize rc hty hrc h0
        exact ⟨r, hr⟩
    · refine ⟨⟨-EINVAL, buffer, w1⟩, ?_⟩
      unfold query_tail
      simp only []
      rw [if_pos hty]

theorem get_colors_call_eq :
    query_call HP_WMI_LIGHTING_GET_ZONE_COLORS HPWMI_LIGHTING
        (List.replicate HP_WMI_KEYBOARD_COLOR_MESSAGE_SIZE 0) 1
        (HP_WMI_KEYBOARD_COLOR_MESSAGE_SIZE : Nat)
      = get_colors_call 0 := by
  decide

theorem set_colors_call_eq (W : List Nat) (hW : W.length = 37) :
    query_call HP_WMI_LIGHTING_SET_ZONE_COLORS HPWMI_LIGHTING W
        (HP_WMI_KEYBOARD_COLOR_MESSAGE_SIZE : Nat) 1
      = set_colors_call W := by
  have h37 : ((HP_WMI_KEYBOARD_COLOR_MESSAGE_SIZE : Nat) : Int).toNat = 37 := by decide
  have hu : to_u32 HP_WMI_LIGHTING_SET_ZONE_COLORS = 3 := by decide
  have he : encode_outsize_for_pvsz 1 = 2 := by decide
  unfold query_call set_colors_call request
  rw [h37, hu, he, hW, List.take_of_length_le (by omega)]

/-- A successful read of the colors: the message has 37 bytes and one call was made. -/
theorem get_colors_success {T : Firmware} {w w1 : World} {M : List Nat}
    (hget : hp_wmi_keyboard_get_colors T w
      (List.replicate HP_WMI_KEYBOARD_COLOR_MESSAGE_SIZE 0) = some ⟨0, M, w1⟩) :
    M.length = 37 ∧ w1 = after_call w (get_colors_call 0) := by
  unfold hp_wmi_keyboard_get_colors at hget
  rw [perform_query_eq T w _ _ _ 1 _ (by decide) (by decide) (by decide) (by decide),
    get_colors_call_eq] at hget
  obtain ⟨h1, _, h3⟩ := query_tail_frame hget
  exact ⟨h1, h3 rfl⟩

/-- The brightness callback after a successful read: the loop rewrites the twelve colour
bytes from the mirror `m` and the message is handed to `hp_wmi_keyboard_set_colors` once. -/
theorem keyboard_set_brightness_eq (mapping : BrightnessMapping) (T : Firmware) (w : World)
    (g : Globals) (z brightness : Nat) (M : List Nat) (w1 : World) (m : Nat → Nat → Nat)
    (hget : hp_wmi_keyboard_get_colors T w
      (List.replicate HP_WMI_KEYBOARD_COLOR_MESSAGE_SIZE 0) = some ⟨0, M, w1⟩)
    (hm : ∀ i, i < 4 → ∀ c, c < 3 →
      subled_brightness (mapping g z brightness) i c = some (m i c))
    (hwf : ∀ c, well_formed_result (T w1.calls c)) :
    ∃ r r2, keyboard_set_brightness mapping T w g z brightness = some r
      ∧ hp_wmi_keyboard_set_colors T w1 (written_message M m) = some r2
      ∧ r.ret = r2.ret ∧ r.world = r2.world ∧ r.globals = mapping g z brightness
      ∧ r.world.calls
          = w.calls ++ [get_colors_call 0, set_colors_call (written_message M m)] := by
  obtain ⟨hlen, hw1⟩ := get_colors_success hget
  have hWlen : (written_message M m).length = 37 := by rw [written_message_length, hlen]
  have hset : hp_wmi_keyboard_set_colors T w1 (written_message M m)
      = query_tail (T w1.calls (set_colors_call (written_message M m)))
          (after_call w1 (set_colors_call (written_message M m)))
          HP_WMI_LIGHTING_SET_ZONE_COLORS (written_message M m) 1 := by
    unfold hp_wmi_keyboard_set_colors
    rw [perform_query_eq T w1 _ _ _ _ 1 (by decide) (by decide)
      (by rw [hWlen]; decide) (by decide), set_colors_call_eq _ hWlen]
  obtain ⟨r2, hr2⟩ := query_tail_defined (T w1.calls (set_colors_call (written_message M m)))
    (after_call w1 (set_colors_call (written_message M m)))
    HP_WMI_LIGHTING_SET_ZONE_COLORS (written_message M m) 1 (hwf _) (by decide) (by decide)
    (by rw [hWlen]; decide)
  obtain ⟨_, hcalls, _⟩ := query_tail_frame hr2
  rw [← hset] at hr2
  refine ⟨⟨r2.ret, mapping g z brightness, r2.world⟩, r2, ?_, hr2, rfl, rfl, rfl, ?_⟩
  · unfold keyboard_set_brightness
    simp only [hget]
    rw [if_neg (by simp), update_leds_eq _ M m hlen hm]
    simp only [hr2]
  · show r2.world.calls = _
    rw [hcalls, hw1]
    simp [after_call]

theorem scenario_firmware_well_formed (h : List wmi_call) (c : wmi_call) :
    well_formed_result (scenario_firmware h c) := by
  intro obj ho _
  unfold scenario_firmware at ho
  split_ifs at ho <;>
    · rw [← Option.some.inj ho]
      exact ⟨by decide, by decide⟩

/-- Decoding a result that is not a buffer. -/
theorem query_tail_not_buffer (obj : acpi_object) (w1 : World) (query : Int)
    (buffer : List Nat) (outsize : Int) (hty : obj.type ≠ ACPI_TYPE_BUFFER) :
    query_tail (some obj) w1 query buffer outsize = some ⟨-EINVAL, buffer, w1⟩ := by
  unfold query_tail
  simp only []
  rw [if_pos hty]

/-- When the read of the colours fails, the callback returns its result and does nothing
else. -/
theorem keyboard_set_brightness_read_failed (mapping : BrightnessMapping) (T : Firmware)
    (w : World) (g : Globals) (z brightness : Nat) (q : QueryResult)
    (hget : hp_wmi_keyboard_get_colors T w
      (List.replicate HP_WMI_KEYBOARD_COLOR_MESSAGE_SIZE 0) = some q)
    (hq : q.ret ≠ 0) :
    keyboard_set_brightness mapping T w g z brightness
      = some ⟨q.ret, mapping g z brightness, q.world⟩ := by
  unfold keyboard_set_brightness
  simp only [hget]
  rw [if_pos hq]

/-- The read of the colours in terms of the transport's answer. -/
theorem get_colors_eq (T : Firmware) (w : World) :
    hp_wmi_keyboard_get_colors T w (List.replicate HP_WMI_KEYBOARD_COLOR_MESSAGE_SIZE 0)
      = query_tail (T w.calls (get_colors_call 0)) (after_call w (get_colors_call 0))
          HP_WMI_LIGHTING_GET_ZONE_COLORS
          (List.replicate HP_WMI_KEYBOARD_COLOR_MESSAGE_SIZE 0)
          (HP_WMI_KEYBOARD_COLOR_MESSAGE_SIZE : Nat) := by
  unfold hp_wmi_keyboard_get_colors
  rw [perform_query_eq T w _ _ _ 1 _ (by decide) (by decide) (by decide) (by decide),
    get_colors_call_eq]

/-- One call of `hp_wmi_set_keyboard_brightness`: it returns and adds one transport call. -/
theorem set_keyboard_brightness_eq (T : Firmware) (w : World) (v : Nat) (hv : v < 256)
    (hwf : well_formed_result (T w.calls (set_brightness_call v))) :
    ∃ r, hp_wmi_set_keyboard_brightness T w v = some r
      ∧ r.world.calls = w.calls ++ [set_brightness_call v] := by
  have hst : store (List.replicate 4 0) 0 (v % 256) = some [v, 0, 0, 0] := by
    rw [Nat.mod_eq_of_lt hv]
    rfl
  have hcall : query_call HP_WMI_LIGHTING_SET_BRIGHTNESS HPWMI_LIGHTING [v, 0, 0, 0] 4 1
      = set_brightness_call v := rfl
  unfold hp_wmi_set_keyboard_brightness
  rw [hst]
  simp only []
  rw [perform_query_eq T w _ _ _ 4 1 (by decide) (by decide) (by simp) (by decide), hcall]
  obtain ⟨r, hr⟩ := query_tail_defined (T w.calls (set_brightness_call v))
    (after_call w (set_brightness_call v)) HP_WMI_LIGHTING_SET_BRIGHTNESS [v, 0, 0, 0] 1 hwf
    (by decide) (by decide) (by simp)
  obtain ⟨_, hc, _⟩ := query_tail_frame hr
  exact ⟨r, hr, hc⟩

theorem to_int_eq_small {n : Nat} (h : n < 2 ^ 32) (k : Nat) (hk : k < 2 ^ 31) :
    to_int n = (k : Int) ↔ n = k := by
  unfold to_int
  have h1 : n % 2 ^ 32 = n := Nat.mod_eq_of_lt h
  rw [h1]
  split_ifs <;> omega

/-- Decoding a result whose status is not zero, with the log line it leaves. -/
theorem query_tail_status_eq (obj : acpi_object) (w1 : World) (query : Int)
    (buffer : List Nat) (outsize : Int) (rc : Nat) (ht : obj.type = ACPI_TYPE_BUFFER)
    (hrc : return_code obj = some rc) (hne : rc ≠ 0) :
    query_tail (some obj) w1 query buffer outsize
      = some ⟨to_int rc, buffer,
          if rc ≠ 3 ∧ rc ≠ 4 then { w1 with pr_warn := w1.pr_warn ++ [(query, to_int rc)] }
          else w1⟩ := by
  have hlt := return_code_lt hrc
  have hr : to_int rc ≠ 0 := fun h => hne ((to_int_eq_zero hlt).1 h)
  have h3 : to_int rc = HPWMI_RET_UNKNOWN_COMMAND ↔ rc = 3 :=
    to_int_eq_small hlt 3 (by decide)
  have h4 : to_int rc = HPWMI_RET_UNKNOWN_CMDTYPE ↔ rc = 4 :=
    to_int_eq_small hlt 4 (by decide)
  unfold query_tail
  simp only []
  rw [if_neg (by simp [ht])]
  simp only [hrc]
  rw [if_pos hr]
  by_cases hc : rc ≠ 3 ∧ rc ≠ 4
  · rw [if_pos hc, if_pos ⟨fun h => hc.1 (h3.1 h), fun h => hc.2 (h4.1 h)⟩]
  · rw [if_neg hc, if_neg (fun h => hc ⟨fun e => h.1 (h3.2 e), fun e => h.2 (h4.2 e)⟩)]

theorem actual_outsize_of_short (outsize : Int) (L : Nat) (ho : 0 ≤ outsize) (hL : L < 8) :
    actual_outsize outsize L = (L : Int) - 8 := by
  unfold actual_outsize
  rw [to_size_t_of_neg (by omega) (by omega)]
  have h1 : ((L : Int) - 8 + 2 ^ 64).toNat = 2 ^ 64 - 8 + L := by omega
  have h2 : (2 ^ 64 - 8 + L) % 2 ^ 32 = 2 ^ 32 - 8 + L := by omega
  rw [h1]
  unfold to_int
  rw [h2, if_neg (by omega)]
  have h3 : (((2 ^ 32 - 8 + L : Nat) : Int)) - 2 ^ 32 = (L : Int) - 8 := by omega
  rw [h3]
  omega

/-- The copy and the zero-fill of the success path, for a length `k ≤ n` inside the payload
`src` and `n` bytes inside the caller's buffer. -/
theorem copy_and_fill (buffer src : List Nat) (k n : Nat) (hk : k ≤ n) (hks : k ≤ src.length)
    (hn : n ≤ buffer.length) :
    ∃ b1 b2, memcpy buffer 0 src k = some b1 ∧ memset b1 (k : Int) 0 (n - k) = some b2
      ∧ b2 = src.take k ++ List.replicate (n - k) 0 ++ buffer.drop n := by
  have hlen : (src.take k).length = k := by
    rw [List.length_take]; omega
  refine ⟨src.take k ++ buffer.drop k, _, ?_, ?_, rfl⟩
  · unfold memcpy
    rw [if_pos ⟨hks, by omega⟩]
    simp only [List.take_zero, List.nil_append, Nat.zero_add]
  · unfold memset
    have e1 : ((k : Nat) : Int).toNat = k := by omega
    rw [if_pos ⟨by omega, by rw [e1, List.length_append, hlen, List.length_drop]; omega⟩, e1]
    have t1 : (src.take k ++ buffer.drop k).take k = src.take k := by
      rw [List.take_append_of_le_length (by omega), List.take_of_length_le (by omega)]
    have t2 : (src.take k ++ buffer.drop k).drop (k + (n - k)) = buffer.drop n := by
      rw [List.drop_append_eq_append_drop, List.drop_of_length_le (by omega), hlen,
        List.drop_drop, List.nil_append]
      congr 1
      omega
    rw [t1, t2]

theorem update_subled_length (subs : List mc_subled) (k : Nat) (f : mc_subled → mc_subled) :
    (update_subled subs k f).length = subs.length := by
  unfold update_subled
  cases subs[k]? with
  | none => rfl
  | some s => simp

/-- The assignments of a zone succeed on arrays of the declared sizes and keep the sizes. -/
theorem setup_zone_defined (g : Globals) (led_data : List Nat) (i : Nat) (hi : i < 4)
    (hleds : g.keyboard_leds.length = 4) (hsubs : g.keyboard_subleds.length = 12)
    (hdata : led_data.length = 37) :
    ∃ g1, setup_zone g led_data i = some g1 ∧ g1.keyboard_leds.length = 4
      ∧ g1.keyboard_subleds.length = 12 := by
  have hsome : ∃ led, g.keyboard_leds[i]? = some led :=
    ⟨g.keyboard_leds[i], List.getElem?_eq_getElem (by omega)⟩
  obtain ⟨led, hled⟩ := hsome
  unfold setup_zone
  rw [hled]
  simp only []
  rw [if_pos ⟨by omega, by omega⟩]
  refine ⟨_, rfl, ?_, ?_⟩
  · simp [hleds]
  · simp [update_subled_length, hsubs]

/-- The loop of `setup_leds` when the registration of zone `k` is the first to fail: it
returns that result, with the zones before `k` registered and nothing else. -/
theorem setup_leds_loop_fail (register : Registration) (led_data : List Nat)
    (hdata : led_data.length = 37) (k : Nat) (hfail : register k ≠ 0) :
    ∀ (n i : Nat) (g : Globals) (registered : List Nat), i + n ≤ 4 → i ≤ k → k < i + n →
      (∀ j, i ≤ j → j < k → register j = 0) →
      g.keyboard_leds.length = 4 → g.keyboard_subleds.length = 12 →
      ∃ g1, setup_leds_loop register led_data i n g registered
        = some (register k, g1, registered ++ List.range' i (k - i)) := by
  intro n
  induction n with
  | zero =>
    intro i g registered _ h2 h3
    omega
  | succ n ih =>
    intro i g registered h1 h2 h3 hok hleds hsubs
    obtain ⟨g1, hz, hl1, hs1⟩ := setup_zone_defined g led_data i (by omega) hleds hsubs hdata
    unfold setup_leds_loop
    rw [hz]
    simp only []
    by_cases hik : i = k
    · subst hik
      rw [if_pos hfail]
      refine ⟨g1, ?_⟩
      simp
    · have hlt : i < k := by omega
      rw [if_neg (by rw [hok i (Nat.le_refl i) hlt]; simp)]
      obtain ⟨g2, h⟩ := ih (i + 1) g1 (registered ++ [i]) (by omega) (by omega) (by omega)
        (fun j hj1 hj2 => hok j (by omega) hj2) hl1 hs1
      refine ⟨g2, ?_⟩
      rw [h]
      have hr : List.range' i (k - i) = i :: List.range' (i + 1) (k - (i + 1)) := by
        have : k - i = (k - (i + 1)) + 1 := by omega
        rw [this, List.range'_succ]
      rw [hr]
      simp

/-- The read of the colours into a 37-byte array keeps its size when it returns. -/
theorem get_colors_length {T : Firmware} {w : World} {led_data : List Nat} {q : QueryResult}
    (hdata : led_data.length = 37)
    (hget : hp_wmi_keyboard_get_colors T w led_data = some q) : q.buffer.length = 37 := by
  unfold hp_wmi_keyboard_get_colors at hget
  rw [perform_query_eq T w _ _ _ 1 _ (by decide) (by decide) (by rw [hdata]; decide)
    (by decide)] at hget
  rw [(query_tail_frame hget).1, hdata]

/-- The probe returns whenever the driver can decode the transport's answer. -/
theorem check_rgb_keyboard_support_defined (T : Firmware) (w : World) (b0 : Nat)
    (hwf : well_formed_result (T w.calls (platform_info_call b0))) :
    ∃ p, hp_wmi_check_rgb_keyboard_support T w [b0] = some p := by
  have heq := perform_query_eq T w HP_WMI_LIGHTING_GET_PLATFORM_INFO HPWMI_LIGHTING [b0] 1 1
    (by decide) (by decide) (by simp) (by decide)
  obtain ⟨q, hq⟩ := query_tail_defined (T w.calls (platform_info_call b0))
    (after_call w (platform_info_call b0)) HP_WMI_LIGHTING_GET_PLATFORM_INFO [b0] 1 hwf
    (by decide) (by decide) (by simp)
  have hlen : q.buffer.length = 1 := (query_tail_frame hq).1
  have hq2 : hp_wmi_perform_query T w HP_WMI_LIGHTING_GET_PLATFORM_INFO HPWMI_LIGHTING [b0]
      1 1 = some q := heq.trans hq
  unfold hp_wmi_check_rgb_keyboard_support
  rw [hq2]
  simp only [store, hlen]
  by_cases hr : q.ret ≠ 0
  · simp [hr, hlen]
  · simp [hr]

/-! ## Theorems -/

/-- C1: for every output size `n ≥ 0`, `encode_outsize_for_pvsz n` is 1 for `n = 0`, 2 for
`0 < n ≤ 4`, 3 for `4 < n ≤ 128`, 4 for `128 < n ≤ 1024`, 5 for `1024 < n ≤ 4096` and
`-EINVAL` for `n > 4096`; the ten boundary values map to 1,2,2,3,3,4,4,5,5,`-EINVAL`. -/
theorem encode_outsize_for_pvsz_table (n : Nat) :
    encode_outsize_for_pvsz (n : Int) =
        (if n = 0 then 1 else if n ≤ 4 then 2 else if n ≤ 128 then 3
         else if n ≤ 1024 then 4 else if n ≤ 4096 then 5 else -EINVAL)
      ∧ [0, 1, 4, 5, 128, 129, 1024, 1025, 4096, 4097].map encode_outsize_for_pvsz
        = [1, 2, 2, 3, 3, 4, 4, 5, 5, -EINVAL] := by
  refine ⟨?_, by decide⟩
  unfold encode_outsize_for_pvsz
  split_ifs <;> first | rfl | omega

/-- C2: when `outsize > 4096`, `hp_wmi_perform_query` returns `-EINVAL`, makes no transport
call and leaves the caller's buffer as it was, whatever the other arguments and the
transport are. -/
theorem perform_query_outsize_too_large (T : Firmware) (w : World) (query : Int)
    (command : Nat) (buffer : List Nat) (insize outsize : Int) (h : 4096 < outsize) :
    ∃ r, hp_wmi_perform_query T w query command buffer insize outsize = some r
      ∧ r.ret = -EINVAL ∧ r.world.calls = w.calls ∧ r.buffer = buffer := by
  have hm : encode_outsize_for_pvsz outsize = -EINVAL := by
    unfold encode_outsize_for_pvsz
    rw [if_pos h]
  refine ⟨⟨-EINVAL, buffer, { w with warn_on := w.warn_on + 1 }⟩, ?_, rfl, rfl, rfl⟩
  unfold hp_wmi_perform_query
  simp only [hm]
  rw [if_pos (by decide)]

theorem perform_query_outsize_too_large_witness :
    (4096 : Int) < 4097 ∧
    ∃ r, hp_wmi_perform_query (const_stub none) ⟨[], 0, []⟩ 2 HPWMI_LIGHTING [7] 1 4097 = some r
      ∧ r.ret = -EINVAL ∧ r.world.calls = [] ∧ r.buffer = [7] :=
  ⟨by decide,
   perform_query_outsize_too_large (const_stub none) ⟨[], 0, []⟩ 2 HPWMI_LIGHTING [7] 1 4097
     (by decide)⟩

/-- C3: when `insize > 128` (an `int`, so at most `INT_MAX`) and `outsize ≤ 4096`,
`hp_wmi_perform_query` fails with the nonzero result `-EINVAL` and makes no transport
call; the caller's buffer is left as it was. -/
theorem perform_query_insize_too_large (T : Firmware) (w : World) (query : Int)
    (command : Nat) (buffer : List Nat) (insize outsize : Int)
    (hin : 128 < insize) (hmax : insize ≤ 2147483647) (hout : outsize ≤ 4096) :
    ∃ r, hp_wmi_perform_query T w query command buffer insize outsize = some r
      ∧ r.ret = -EINVAL ∧ r.ret ≠ 0 ∧ r.world.calls = w.calls ∧ r.buffer = buffer := by
  have hs : to_size_t insize > 128 := by
    rw [to_size_t_of_nonneg (by omega) (by omega)]
    omega
  refine ⟨⟨-EINVAL, buffer, { w with warn_on := w.warn_on + 1 }⟩, ?_, rfl,
    by simp [EINVAL], rfl, rfl⟩
  unfold hp_wmi_perform_query
  simp only []
  rw [if_neg (encode_outsize_nonneg hout), if_pos hs]

theorem perform_query_insize_too_large_witness :
    (128 : Int) < 129 ∧ (129 : Int) ≤ 2147483647 ∧ (37 : Int) ≤ 4096 ∧
    ∃ r, hp_wmi_perform_query (const_stub none) ⟨[], 0, []⟩ 3 HPWMI_LIGHTING
        (List.replicate 129 5) 129 37 = some r
      ∧ r.ret = -EINVAL ∧ r.ret ≠ 0 ∧ r.world.calls = [] ∧ r.buffer = List.replicate 129 5 :=
  ⟨by decide, by decide, by decide,
   perform_query_insize_too_large (const_stub none) ⟨[], 0, []⟩ 3 HPWMI_LIGHTING
     (List.replicate 129 5) 129 37 (by decide) (by decide) (by decide)⟩

/-- C4 (round trip): for a payload `P` of at most 128 bytes and the stub that answers with
an 8-byte header of status 0 followed by the request's `data[0 .. datasize)`,
`hp_wmi_perform_query(query, command, P, len P, len P)` returns 0 and the buffer holds `P`
again; the transport was called once. -/
theorem perform_query_echo_round_trip (s0 s1 s2 s3 : Nat) (w : World) (query : Int)
    (command : Nat) (P : List Nat) (hP : P.length ≤ 128) :
    ∃ r, hp_wmi_perform_query (echo_stub s0 s1 s2 s3) w query command P P.length P.length
          = some r
      ∧ r.ret = 0 ∧ r.buffer.take P.length = P ∧ r.buffer = P
      ∧ r.world.calls.length = w.calls.length + 1 := by
  have hlen : ((P.length : Nat) : Int).toNat = P.length := by omega
  have hdata : (query_call query command P P.length P.length).input.data.take
      (query_call query command P P.length P.length).input.datasize = P := by
    simp only [query_call, hlen]
    rw [List.take_of_length_le (Nat.le_refl _), List.take_append_of_le_length (Nat.le_refl _),
      List.take_of_length_le (Nat.le_refl _)]
  rw [perform_query_eq _ w query command P P.length P.length (by omega) (by omega)
    (by omega) (by omega)]
  have hobj : echo_stub s0 s1 s2 s3 w.calls (query_call query command P P.length P.length)
      = some ⟨ACPI_TYPE_BUFFER, [s0, s1, s2, s3, 0, 0, 0, 0] ++ P⟩ := by
    unfold echo_stub
    rw [hdata]
  rw [hobj, query_tail_success ⟨ACPI_TYPE_BUFFER, [s0, s1, s2, s3, 0, 0, 0, 0] ++ P⟩ _ query P
    P.length rfl (by simp [return_code, le32]) (by simp) (by simp; omega) (by omega)
    (by omega) (by omega)]
  have hb : (List.drop 8 ([s0, s1, s2, s3, 0, 0, 0, 0] ++ P)).take
        (min ((P.length : Nat) : Int).toNat (([s0, s1, s2, s3, 0, 0, 0, 0] ++ P).length - 8))
      ++ List.replicate (((P.length : Nat) : Int).toNat
          - min ((P.length : Nat) : Int).toNat (([s0, s1, s2, s3, 0, 0, 0, 0] ++ P).length - 8)) 0
      ++ P.drop ((P.length : Nat) : Int).toNat = P := by
    rw [hlen]
    simp
  rw [hb]
  refine ⟨_, rfl, rfl, List.take_of_length_le (Nat.le_refl _), rfl, ?_⟩
  simp [after_call]

theorem perform_query_echo_round_trip_witness :
    [10, 20, 30].length ≤ 128 ∧
    ∃ r, hp_wmi_perform_query (echo_stub 1 2 3 4) ⟨[], 0, []⟩ 2 HPWMI_LIGHTING [10, 20, 30]
          ([10, 20, 30].length : Nat) ([10, 20, 30].length : Nat) = some r
      ∧ r.ret = 0 ∧ r.buffer.take [10, 20, 30].length = [10, 20, 30] ∧ r.buffer = [10, 20, 30]
      ∧ r.world.calls.length = (⟨[], 0, []⟩ : World).calls.length + 1 :=
  ⟨by decide,
   perform_query_echo_round_trip 1 2 3 4 ⟨[], 0, []⟩ 2 HPWMI_LIGHTING [10, 20, 30] (by decide)⟩

/-- C5 (success, short-response zero-fill): for `1 ≤ outsize ≤ 4096`, an input size in
`0 .. 128`, a caller buffer that holds both sizes, and a transport result that is a buffer of
length `L ≥ 8` (payload below `2^31` bytes) with status 0, the query returns 0 and, with
`k = min(outsize, L - 8)`, the buffer starts with result bytes `[8, 8 + k)`, every byte of
`buffer[k .. outsize)` is 0 and the bytes from `outsize` on are untouched, whatever the
buffer held before. -/
theorem perform_query_success_zero_fill (T : Firmware) (w : World) (query : Int)
    (command : Nat) (buffer : List Nat) (insize outsize : Int) (obj : acpi_object)
    (hi0 : 0 ≤ insize) (hin : insize ≤ 128) (hib : insize ≤ buffer.length)
    (ho1 : 1 ≤ outsize) (hout : outsize ≤ 4096) (hob : outsize ≤ buffer.length)
    (hT : T w.calls (query_call query command buffer insize outsize) = some obj)
    (ht : obj.type = ACPI_TYPE_BUFFER) (h8 : 8 ≤ obj.buffer.length)
    (hL : obj.buffer.length < 2 ^ 31 + 8) (hrc : return_code obj = some 0) :
    ∃ r, hp_wmi_perform_query T w query command buffer insize outsize = some r
      ∧ r.ret = 0
      ∧ r.buffer.take (min outsize.toNat (obj.buffer.length - 8))
          = (obj.buffer.drop 8).take (min outsize.toNat (obj.buffer.length - 8))
      ∧ (∀ j, min outsize.toNat (obj.buffer.length - 8) ≤ j → j < outsize.toNat →
          r.buffer[j]? = some 0)
      ∧ r.buffer.drop outsize.toNat = buffer.drop outsize.toNat
      ∧ r.buffer.length = buffer.length := by
  rw [perform_query_eq T w query command buffer insize outsize hi0 hin hib hout, hT,
    query_tail_success obj _ query buffer outsize ht hrc h8 hL (by omega) hout hob]
  obtain ⟨n, rfl⟩ := Int.eq_ofNat_of_zero_le (show (0 : Int) ≤ outsize by omega)
  have e3 : ((n : Nat) : Int).toNat = n := by omega
  rw [e3]
  set k := min n (obj.buffer.length - 8) with hk
  have hkn : k ≤ n := by omega
  have hnb : n ≤ buffer.length := by omega
  have hlen : ((obj.buffer.drop 8).take k).length = k := by
    rw [List.length_take, List.length_drop]; omega
  refine ⟨_, rfl, rfl, ?_, ?_, ?_, ?_⟩
  · show List.take k (_ ++ _ ++ _) = _
    rw [List.append_assoc, List.take_append_of_le_length (by omega),
      List.take_of_length_le (by omega)]
  · intro j hj1 hj2
    show (_ ++ _ ++ _)[j]? = _
    rw [List.append_assoc, List.getElem?_append_right (by omega), hlen,
      List.getElem?_append_left (by rw [List.length_replicate]; omega),
      List.getElem?_replicate, if_pos (by omega)]
  · show List.drop n (_ ++ _ ++ _) = _
    rw [List.drop_append_eq_append_drop, List.drop_of_length_le (by
      rw [List.length_append, hlen, List.length_replicate]; omega),
      List.length_append, hlen, List.length_replicate, List.nil_append]
    have : n - (k + (n - k)) = 0 := by omega
    rw [this, List.drop_zero]
  · show List.length (_ ++ _ ++ _) = _
    rw [List.length_append, List.length_append, hlen, List.length_replicate,
      List.length_drop]
    omega

theorem perform_query_success_zero_fill_witness :
    (0 : Int) ≤ 1 ∧ (1 : Int) ≤ 128 ∧ (1 : Int) ≤ ([9, 9, 9, 9, 9].length : Nat) ∧
    (1 : Int) ≤ 4 ∧ (4 : Int) ≤ 4096 ∧ (4 : Int) ≤ ([9, 9, 9, 9, 9].length : Nat) ∧
    ∃ r, hp_wmi_perform_query
          (const_stub (some ⟨ACPI_TYPE_BUFFER, [1, 2, 3, 4, 0, 0, 0, 0, 50, 60]⟩))
          ⟨[], 0, []⟩ 2 HPWMI_LIGHTING [9, 9, 9, 9, 9] 1 4 = some r
      ∧ r.ret = 0
      ∧ r.buffer.take (min (4 : Int).toNat ([1, 2, 3, 4, 0, 0, 0, 0, 50, 60].length - 8))
          = (List.drop 8 [1, 2, 3, 4, 0, 0, 0, 0, 50, 60]).take
              (min (4 : Int).toNat ([1, 2, 3, 4, 0, 0, 0, 0, 50, 60].length - 8))
      ∧ (∀ j, min (4 : Int).toNat ([1, 2, 3, 4, 0, 0, 0, 0, 50, 60].length - 8) ≤ j →
          j < (4 : Int).toNat → r.buffer[j]? = some 0)
      ∧ r.buffer.drop (4 : Int).toNat = List.drop (4 : Int).toNat [9, 9, 9, 9, 9]
      ∧ r.buffer.length = [9, 9, 9, 9, 9].length :=
  ⟨by decide, by decide, by decide, by decide, by decide, by decide,
   perform_query_success_zero_fill
      (const_stub (some ⟨ACPI_TYPE_BUFFER, [1, 2, 3, 4, 0, 0, 0, 0, 50, 60]⟩))
      ⟨[], 0, []⟩ 2 HPWMI_LIGHTING [9, 9, 9, 9, 9] 1 4
      ⟨ACPI_TYPE_BUFFER, [1, 2, 3, 4, 0, 0, 0, 0, 50, 60]⟩
      (by decide) (by decide) (by decide) (by decide) (by decide) (by decide) rfl rfl
      (by decide) (by decide) (by decide)⟩

/-- C6: for sizes in range (input size in `0 .. 128` held by the buffer, `outsize ≤ 4096`)
and a transport result that is a buffer with the 8 header bytes whose status field `s` is not
zero, the query returns the status code (`s` converted to `int`, which is `s` itself below
`2^31`), a nonzero value, and the caller's buffer is byte for byte what it was. -/
theorem perform_query_firmware_status (T : Firmware) (w : World) (query : Int)
    (command : Nat) (buffer : List Nat) (insize outsize : Int) (obj : acpi_object) (s : Nat)
    (hi0 : 0 ≤ insize) (hin : insize ≤ 128) (hib : insize ≤ buffer.length)
    (hout : outsize ≤ 4096)
    (hT : T w.calls (query_call query command buffer insize outsize) = some obj)
    (ht : obj.type = ACPI_TYPE_BUFFER) (hrc : return_code obj = some s) (hs : s ≠ 0) :
    ∃ r, hp_wmi_perform_query T w query command buffer insize outsize = some r
      ∧ r.ret = to_int s ∧ (s < 2 ^ 31 → r.ret = (s : Int)) ∧ r.ret ≠ 0
      ∧ r.buffer = buffer := by
  rw [perform_query_eq T w query command buffer insize outsize hi0 hin hib hout, hT]
  obtain ⟨r, h1, h2, h3, h4, _⟩ := query_tail_status obj
    (after_call w (query_call query command buffer insize outsize)) query buffer outsize s ht
    hrc hs
  exact ⟨r, h1, h2, fun hlt => by rw [h2, to_int_of_lt hlt], h3, h4⟩

theorem perform_query_firmware_status_witness :
    (0 : Int) ≤ 1 ∧ (1 : Int) ≤ 128 ∧ (1 : Int) ≤ ([9, 8, 7].length : Nat) ∧ (3 : Int) ≤ 4096
    ∧ (5 : Nat) ≠ 0 ∧
    ∃ r, hp_wmi_perform_query
          (const_stub (some ⟨ACPI_TYPE_BUFFER, [1, 2, 3, 4, 5, 0, 0, 0, 50, 60, 70]⟩))
          ⟨[], 0, []⟩ 2 HPWMI_LIGHTING [9, 8, 7] 1 3 = some r
      ∧ r.ret = to_int 5 ∧ (5 < 2 ^ 31 → r.ret = ((5 : Nat) : Int)) ∧ r.ret ≠ 0
      ∧ r.buffer = [9, 8, 7] :=
  ⟨by decide, by decide, by decide, by decide, by decide,
   perform_query_firmware_status
      (const_stub (some ⟨ACPI_TYPE_BUFFER, [1, 2, 3, 4, 5, 0, 0, 0, 50, 60, 70]⟩))
      ⟨[], 0, []⟩ 2 HPWMI_LIGHTING [9, 8, 7] 1 3
      ⟨ACPI_TYPE_BUFFER, [1, 2, 3, 4, 5, 0, 0, 0, 50, 60, 70]⟩ 5
      (by decide) (by decide) (by decide) (by decide) rfl rfl (by decide) (by decide)⟩

/-- C7: for `insize ≤ 128` (an `int`, held by the buffer when it is not negative) and
`outsize ≤ 4096`, if the transport leaves no result, or a result object whose type is not
the buffer type, the query returns `-EINVAL`, which is not 0, and the caller's buffer is
not modified. -/
theorem perform_query_transport_error (T : Firmware) (w : World) (query : Int)
    (command : Nat) (buffer : List Nat) (insize outsize : Int)
    (hmin : -2147483648 ≤ insize) (hin : insize ≤ 128) (hib : insize ≤ buffer.length)
    (hout : outsize ≤ 4096)
    (hT : T w.calls (query_call query command buffer insize outsize) = none
      ∨ ∃ obj, T w.calls (query_call query command buffer insize outsize) = some obj
          ∧ obj.type ≠ ACPI_TYPE_BUFFER) :
    ∃ r, hp_wmi_perform_query T w query command buffer insize outsize = some r
      ∧ r.ret = -EINVAL ∧ r.ret ≠ 0 ∧ r.buffer = buffer := by
  have hne : -EINVAL ≠ 0 := by decide
  by_cases hneg : insize < 0
  · rw [perform_query_insize_negative_eq T w query command buffer insize outsize hneg hmin hout]
    exact ⟨_, rfl, rfl, hne, rfl⟩
  · rw [perform_query_eq T w query command buffer insize outsize (by omega) hin hib hout]
    rcases hT with hT | ⟨obj, hT, hty⟩
    · rw [hT]
      exact ⟨_, rfl, rfl, hne, rfl⟩
    · rw [hT]
      unfold query_tail
      simp only []
      rw [if_pos hty]
      exact ⟨_, rfl, rfl, hne, rfl⟩

theorem perform_query_transport_error_witness :
    (-2147483648 : Int) ≤ 1 ∧ (1 : Int) ≤ 128 ∧ (1 : Int) ≤ ([9, 8, 7].length : Nat)
    ∧ (3 : Int) ≤ 4096 ∧
    ∃ r, hp_wmi_perform_query (const_stub (some ⟨1, []⟩)) ⟨[], 0, []⟩ 2 HPWMI_LIGHTING
          [9, 8, 7] 1 3 = some r
      ∧ r.ret = -EINVAL ∧ r.ret ≠ 0 ∧ r.buffer = [9, 8, 7] :=
  ⟨by decide, by decide, by decide, by decide,
   perform_query_transport_error (const_stub (some ⟨1, []⟩)) ⟨[], 0, []⟩ 2 HPWMI_LIGHTING
      [9, 8, 7] 1 3 (by decide) (by decide) (by decide) (by decide)
      (Or.inr ⟨⟨1, []⟩, rfl, by decide⟩)⟩

/-- C8: `hp_wmi_check_rgb_keyboard_support` returns what the platform-info query returns.
When that query succeeds (a buffer result with status 0) the flag becomes `b AND 1`, where
`b` is the first payload byte of the result, or 0 if the result has no payload byte; when
the query fails the flag becomes 0; this for every initial value `b0` of the flag and every
response the driver can decode. In particular the payload byte `0x03` with status 0 gives
flag 1. -/
theorem check_rgb_keyboard_support_flag (T : Firmware) (w : World) (b0 : Nat)
    (hwf : well_formed_result
      (T w.calls (platform_info_call b0))) :
    (∃ q r,
      hp_wmi_perform_query T w HP_WMI_LIGHTING_GET_PLATFORM_INFO HPWMI_LIGHTING [b0] 1 1
          = some q
      ∧ hp_wmi_check_rgb_keyboard_support T w [b0] = some r
      ∧ r.ret = q.ret ∧ r.world = q.world
      ∧ (q.ret = 0 → ∃ obj,
          T w.calls (platform_info_call b0)
              = some obj
            ∧ obj.type = ACPI_TYPE_BUFFER ∧ return_code obj = some 0
            ∧ r.buffer = [obj.buffer.getD 8 0 &&& 1])
      ∧ (q.ret ≠ 0 → r.buffer = [0])
      ∧ (∀ obj,
          T w.calls (platform_info_call b0)
              = some obj →
            obj.type = ACPI_TYPE_BUFFER → return_code obj = some 0 →
            r.ret = 0 ∧ r.buffer = [obj.buffer.getD 8 0 &&& 1]))
    ∧ ∀ s0 s1 s2 s3 : Nat,
        hp_wmi_check_rgb_keyboard_support
            (const_stub (some ⟨ACPI_TYPE_BUFFER, [s0, s1, s2, s3, 0, 0, 0, 0, 0x03]⟩)) w [b0]
          = some ⟨0, [1],
              after_call w
                (platform_info_call b0)⟩ := by
  have key : ∀ (T : Firmware),
      well_formed_result
        (T w.calls (platform_info_call b0)) →
      ∃ q r,
      hp_wmi_perform_query T w HP_WMI_LIGHTING_GET_PLATFORM_INFO HPWMI_LIGHTING [b0] 1 1
          = some q
      ∧ hp_wmi_check_rgb_keyboard_support T w [b0] = some r
      ∧ r.ret = q.ret ∧ r.world = q.world
      ∧ (q.ret = 0 → ∃ obj,
          T w.calls (platform_info_call b0)
              = some obj
            ∧ obj.type = ACPI_TYPE_BUFFER ∧ return_code obj = some 0
            ∧ r.buffer = [obj.buffer.getD 8 0 &&& 1]
            ∧ q.world = after_call w
                (platform_info_call b0))
      ∧ (q.ret ≠ 0 → r.buffer = [0]) := by
    intro T hwf
    have heq := perform_query_eq T w HP_WMI_LIGHTING_GET_PLATFORM_INFO HPWMI_LIGHTING [b0] 1 1
      (by decide) (by decide) (by simp) (by decide)
    rw [show query_call HP_WMI_LIGHTING_GET_PLATFORM_INFO HPWMI_LIGHTING [b0] 1 1
      = platform_info_call b0 from rfl] at heq
    have hne : -EINVAL ≠ 0 := by decide
    have fail : ∀ q : QueryResult,
        hp_wmi_perform_query T w HP_WMI_LIGHTING_GET_PLATFORM_INFO HPWMI_LIGHTING [b0] 1 1
          = some q → q.ret ≠ 0 → q.buffer = [b0] →
        hp_wmi_check_rgb_keyboard_support T w [b0] = some ⟨q.ret, [0], q.world⟩ := by
      intro q hq hr hb
      unfold hp_wmi_check_rgb_keyboard_support
      rw [hq]
      simp [store, hb, hr]
    cases hT : T w.calls (platform_info_call b0)
      with
    | none =>
      rw [hT] at heq
      have hq : hp_wmi_perform_query T w HP_WMI_LIGHTING_GET_PLATFORM_INFO HPWMI_LIGHTING
          [b0] 1 1 = some ⟨-EINVAL, [b0], after_call w
            (platform_info_call b0)⟩ := heq
      exact ⟨_, _, hq, fail _ hq hne rfl, rfl, rfl, fun h => absurd h hne, fun _ => rfl⟩
    | some obj =>
      rw [hT] at heq
      by_cases hty : obj.type = ACPI_TYPE_BUFFER
      · obtain ⟨h8, hL⟩ := hwf obj hT hty
        have hrc : ∃ rc, return_code obj = some rc := by
          unfold return_code
          rw [if_pos h8]
          exact ⟨_, rfl⟩
        obtain ⟨rc, hrc⟩ := hrc
        by_cases h0 : rc = 0
        · subst h0
          rw [query_tail_success obj _ _ [b0] 1 hty hrc h8 hL (by decide) (by decide)
            (by simp)] at heq
          have e1 : (1 : Int).toNat = 1 := rfl
          rw [e1, one_byte_payload obj.buffer b0] at heq
          refine ⟨_, ⟨0, [obj.buffer.getD 8 0 &&& 1], _⟩, heq, ?_, rfl, rfl,
            fun _ => ⟨obj, rfl, hty, hrc, rfl, rfl⟩, fun h => absurd rfl h⟩
          unfold hp_wmi_check_rgb_keyboard_support
          rw [heq]
          simp [store]
        · obtain ⟨q, hq1, hq2, hq3, hq4, hq5⟩ := query_tail_status obj
            (after_call w (platform_info_call b0))
            HP_WMI_LIGHTING_GET_PLATFORM_INFO [b0] 1 rc hty hrc h0
          rw [hq1] at heq
          exact ⟨q, _, heq, fail q heq hq3 hq4, rfl, rfl, fun h => absurd h hq3, fun _ => rfl⟩
      · have hq : hp_wmi_perform_query T w HP_WMI_LIGHTING_GET_PLATFORM_INFO HPWMI_LIGHTING
            [b0] 1 1 = some ⟨-EINVAL, [b0], after_call w
              (platform_info_call b0)⟩ := by
          rw [heq]
          unfold query_tail
          simp only []
          rw [if_pos hty]
        exact ⟨_, _, hq, fail _ hq hne rfl, rfl, rfl, fun h => absurd h hne, fun _ => rfl⟩
  constructor
  · obtain ⟨q, r, h1, h2, h3, h4, h5, h6⟩ := key T hwf
    refine ⟨q, r, h1, h2, h3, h4, ?_, h6, ?_⟩
    · intro hq
      obtain ⟨obj, a1, a2, a3, a4, _⟩ := h5 hq
      exact ⟨obj, a1, a2, a3, a4⟩
    · intro obj hT hty hrc
      have heq := perform_query_eq T w HP_WMI_LIGHTING_GET_PLATFORM_INFO HPWMI_LIGHTING [b0]
        1 1 (by decide) (by decide) (by simp) (by decide)
      rw [show query_call HP_WMI_LIGHTING_GET_PLATFORM_INFO HPWMI_LIGHTING [b0] 1 1
        = platform_info_call b0 from rfl] at heq
      obtain ⟨h8, hL⟩ := hwf obj hT hty
      rw [hT, query_tail_success obj _ _ [b0] 1 hty hrc h8 hL (by decide) (by decide)
        (by simp), h1] at heq
      have hq0 : q.ret = 0 := by
        rw [Option.some.inj heq]
      obtain ⟨obj2, a1, _, _, a4, _⟩ := h5 hq0
      rw [hT] at a1
      rw [← Option.some.inj a1] at a4
      exact ⟨h3.trans hq0, a4⟩
  · intro s0 s1 s2 s3
    obtain ⟨q, r, h1, h2, h3, h4, h5, h6⟩ := key
      (const_stub (some ⟨ACPI_TYPE_BUFFER, [s0, s1, s2, s3, 0, 0, 0, 0, 0x03]⟩))
      (by
        intro obj ho _
        have : obj = ⟨ACPI_TYPE_BUFFER, [s0, s1, s2, s3, 0, 0, 0, 0, 0x03]⟩ :=
          (Option.some.inj ho).symm
        subst this
        exact ⟨by simp, by simp⟩)
    have heq := perform_query_eq
      (const_stub (some ⟨ACPI_TYPE_BUFFER, [s0, s1, s2, s3, 0, 0, 0, 0, 0x03]⟩)) w
      HP_WMI_LIGHTING_GET_PLATFORM_INFO HPWMI_LIGHTING [b0]
      1 1 (by decide) (by decide) (by simp) (by decide)
    rw [show query_call HP_WMI_LIGHTING_GET_PLATFORM_INFO HPWMI_LIGHTING [b0] 1 1
      = platform_info_call b0 from rfl] at heq
    have hc : const_stub (some ⟨ACPI_TYPE_BUFFER, [s0, s1, s2, s3, 0, 0, 0, 0, 0x03]⟩) w.calls
        (platform_info_call b0)
        = some ⟨ACPI_TYPE_BUFFER, [s0, s1, s2, s3, 0, 0, 0, 0, 0x03]⟩ := rfl
    rw [hc, query_tail_success ⟨ACPI_TYPE_BUFFER, [s0, s1, s2, s3, 0, 0, 0, 0, 0x03]⟩ _ _ [b0] 1
      rfl (by simp [return_code, le32]) (by simp) (by simp) (by decide) (by decide)
      (by simp), h1] at heq
    have hq0 : q.ret = 0 := by
      rw [Option.some.inj heq]
    obtain ⟨obj2, a1, _, _, a4, a5⟩ := h5 hq0
    rw [hc] at a1
    rw [← Option.some.inj a1] at a4
    rw [h2]
    cases r with
    | mk rr rb rw_ =>
      simp only at h3 h4 a4
      rw [h3, hq0, h4, a5, a4]
      have hb : [s0, s1, s2, s3, 0, 0, 0, 0, 3].getD 8 0 &&& 1 = 1 := by
        simp
      rw [hb]

theorem check_rgb_keyboard_support_flag_witness :
    well_formed_result
      (const_stub (some ⟨ACPI_TYPE_BUFFER, [1, 2, 3, 4, 0, 0, 0, 0, 0x03]⟩)
        (⟨[], 0, []⟩ : World).calls (platform_info_call 255))
    ∧ ∃ q r,
      hp_wmi_perform_query (const_stub (some ⟨ACPI_TYPE_BUFFER, [1, 2, 3, 4, 0, 0, 0, 0, 0x03]⟩))
          ⟨[], 0, []⟩ HP_WMI_LIGHTING_GET_PLATFORM_INFO HPWMI_LIGHTING [255] 1 1 = some q
      ∧ hp_wmi_check_rgb_keyboard_support
          (const_stub (some ⟨ACPI_TYPE_BUFFER, [1, 2, 3, 4, 0, 0, 0, 0, 0x03]⟩))
          ⟨[], 0, []⟩ [255] = some r
      ∧ r.ret = q.ret ∧ (q.ret ≠ 0 → r.buffer = [0])
      ∧ r.ret = 0 ∧ r.buffer = [1] := by
  have hwf : well_formed_result
      (const_stub (some ⟨ACPI_TYPE_BUFFER, [1, 2, 3, 4, 0, 0, 0, 0, 0x03]⟩)
        (⟨[], 0, []⟩ : World).calls (platform_info_call 255)) := by
    intro obj ho _
    have : obj = ⟨ACPI_TYPE_BUFFER, [1, 2, 3, 4, 0, 0, 0, 0, 0x03]⟩ := (Option.some.inj ho).symm
    subst this
    exact ⟨by decide, by decide⟩
  obtain ⟨⟨q, r, h1, h2, h3, _, _, h6, h7⟩, _⟩ := check_rgb_keyboard_support_flag
    (const_stub (some ⟨ACPI_TYPE_BUFFER, [1, 2, 3, 4, 0, 0, 0, 0, 0x03]⟩)) ⟨[], 0, []⟩ 255 hwf
  exact ⟨hwf, q, r, h1, h2, h3, h6, h7 ⟨ACPI_TYPE_BUFFER, [1, 2, 3, 4, 0, 0, 0, 0, 0x03]⟩ rfl rfl
    (by decide)⟩

/-- C9 (amended): when `get_zone_colors` succeeds with the message `M`, the callback issues
the write of a 37-byte message `W` whose bytes `[0, 25)` are those of `M` and in which, for
every zone `i ≠ z` whose mirror triple after the host mapping (reduced modulo 256) equals
the triple of `M`, the three bytes at `25 + 3 i` equal those of `M`. -/
theorem keyboard_set_brightness_other_zones (mapping : BrightnessMapping) (T : Firmware)
    (w : World) (g : Globals) (z brightness : Nat) (M : List Nat) (w1 : World)
    (m : Nat → Nat → Nat)
    (hget : hp_wmi_keyboard_get_colors T w
      (List.replicate HP_WMI_KEYBOARD_COLOR_MESSAGE_SIZE 0) = some ⟨0, M, w1⟩)
    (hm : ∀ i, i < 4 → ∀ c, c < 3 →
      subled_brightness (mapping g z brightness) i c = some (m i c))
    (hwf : ∀ c, well_formed_result (T w1.calls c)) :
    ∃ r W, keyboard_set_brightness mapping T w g z brightness = some r
      ∧ r.world.calls = w.calls ++ [get_colors_call 0, set_colors_call W]
      ∧ W.length = 37
      ∧ (∀ j, j < 25 → W[j]? = M[j]?)
      ∧ ∀ i, i < 4 → i ≠ z →
          (∀ c, c < 3 → M[25 + 3 * i + c]? = some (m i c % 256)) →
          ∀ c, c < 3 → W[25 + 3 * i + c]? = M[25 + 3 * i + c]? := by
  obtain ⟨r, r2, h1, _, _, _, _, h6⟩ :=
    keyboard_set_brightness_eq mapping T w g z brightness M w1 m hget hm hwf
  obtain ⟨hlen, _⟩ := get_colors_success hget
  refine ⟨r, written_message M m, h1, h6, by rw [written_message_length, hlen],
    written_message_header M m, ?_⟩
  intro i hi _ hagree c hc
  rw [written_message_zone M m hlen i c hi hc, hagree c hc]

set_option maxRecDepth 100000 in
/-- C9, as stated, fails: in the scenario the mirror of zone 0 holds red 11 while the message
read from the firmware holds red 10; the callback for zone 2 writes 11 into zone 0. -/
theorem keyboard_set_brightness_other_zones_counterexample :
    hp_wmi_keyboard_get_colors scenario_firmware ⟨[], 0, []⟩
        (List.replicate HP_WMI_KEYBOARD_COLOR_MESSAGE_SIZE 0)
      = some ⟨0, scenario_message, ⟨[get_colors_call 0], 0, []⟩⟩
    ∧ (keyboard_set_brightness led_mc_calc_color_components scenario_firmware
          ⟨[], 0, []⟩ (scenario_globals [11, 20, 30, 40, 50, 60, 1, 2, 3, 70, 80, 90]) 2 128).map
        (fun r => r.world.calls)
      = some [get_colors_call 0,
          set_colors_call (scenario_message.take 25
            ++ [11, 20, 30, 40, 50, 60, 128, 0, 0, 70, 80, 90])]
    ∧ (scenario_message.take 25 ++ [11, 20, 30, 40, 50, 60, 128, 0, 0, 70, 80, 90])[25 + 3 * 0 + 0]?
      ≠ scenario_message[25 + 3 * 0 + 0]? := by
  decide

set_option maxRecDepth 100000 in
theorem keyboard_set_brightness_other_zones_witness :
    hp_wmi_keyboard_get_colors scenario_firmware ⟨[], 0, []⟩
        (List.replicate HP_WMI_KEYBOARD_COLOR_MESSAGE_SIZE 0)
      = some ⟨0, scenario_message, ⟨[get_colors_call 0], 0, []⟩⟩
    ∧ ∃ r W, keyboard_set_brightness led_mc_calc_color_components scenario_firmware
          ⟨[], 0, []⟩ (scenario_globals [10, 20, 30, 40, 50, 60, 1, 2, 3, 70, 80, 90]) 2 128
          = some r
      ∧ r.world.calls
          = (⟨[], 0, []⟩ : World).calls ++ [get_colors_call 0, set_colors_call W]
      ∧ W.length = 37
      ∧ (∀ j, j < 25 → W[j]? = scenario_message[j]?)
      ∧ ∀ i, i < 4 → i ≠ 2 →
          (∀ c, c < 3 → scenario_message[25 + 3 * i + c]?
            = some (scenario_mirror [10, 20, 30, 40, 50, 60, 1, 2, 3, 70, 80, 90] i c % 256)) →
          ∀ c, c < 3 → W[25 + 3 * i + c]? = scenario_message[25 + 3 * i + c]? :=
  ⟨by decide,
   keyboard_set_brightness_other_zones led_mc_calc_color_components scenario_firmware
     ⟨[], 0, []⟩ (scenario_globals [10, 20, 30, 40, 50, 60, 1, 2, 3, 70, 80, 90]) 2 128
     scenario_message ⟨[get_colors_call 0], 0, []⟩
     (scenario_mirror [10, 20, 30, 40, 50, 60, 1, 2, 3, 70, 80, 90])
     (by decide) (by decide) (fun c => scenario_firmware_well_formed _ c)⟩

/-- C10: when `get_zone_colors` succeeds with the message `M`, the callback makes exactly
one further transport call, the `set_zone_colors` request (method 2, command `0x20009`,
command type 3, data size 37); the first 25 payload bytes are those of `M`; the callback
returns what that one `hp_wmi_keyboard_set_colors` call returns, zero or not, and makes no
other call. -/
theorem keyboard_set_brightness_single_write (mapping : BrightnessMapping) (T : Firmware)
    (w : World) (g : Globals) (z brightness : Nat) (M : List Nat) (w1 : World)
    (m : Nat → Nat → Nat)
    (hget : hp_wmi_keyboard_get_colors T w
      (List.replicate HP_WMI_KEYBOARD_COLOR_MESSAGE_SIZE 0) = some ⟨0, M, w1⟩)
    (hm : ∀ i, i < 4 → ∀ c, c < 3 →
      subled_brightness (mapping g z brightness) i c = some (m i c))
    (hwf : ∀ c, well_formed_result (T w1.calls c)) :
    ∃ r W r2, keyboard_set_brightness mapping T w g z brightness = some r
      ∧ hp_wmi_keyboard_set_colors T w1 W = some r2
      ∧ r.ret = r2.ret
      ∧ w1.calls = w.calls ++ [get_colors_call 0]
      ∧ r.world.calls = w1.calls ++ [set_colors_call W]
      ∧ (set_colors_call W).method_id = 2
      ∧ (set_colors_call W).input.signature = 0x55434553
      ∧ (set_colors_call W).input.command = 0x20009
      ∧ (set_colors_call W).input.commandtype = 3
      ∧ (set_colors_call W).input.datasize = 37
      ∧ (set_colors_call W).input.data.take 25 = M.take 25 := by
  obtain ⟨r, r2, h1, h2, h3, _, _, h6⟩ :=
    keyboard_set_brightness_eq mapping T w g z brightness M w1 m hget hm hwf
  obtain ⟨hlen, hw1⟩ := get_colors_success hget
  have hWlen : (written_message M m).length = 37 := by rw [written_message_length, hlen]
  have hcalls : w1.calls = w.calls ++ [get_colors_call 0] := by
    rw [hw1]
    rfl
  refine ⟨r, written_message M m, r2, h1, h2, h3, hcalls, ?_, rfl, rfl, rfl, rfl, hWlen, ?_⟩
  · rw [h6, hcalls]
    simp
  · show List.take 25 (written_message M m ++ _) = _
    rw [List.take_append_of_le_length (by omega), written_message_take]

set_option maxRecDepth 100000 in
theorem keyboard_set_brightness_single_write_witness :
    hp_wmi_keyboard_get_colors scenario_firmware ⟨[], 0, []⟩
        (List.replicate HP_WMI_KEYBOARD_COLOR_MESSAGE_SIZE 0)
      = some ⟨0, scenario_message, ⟨[get_colors_call 0], 0, []⟩⟩
    ∧ ∃ r W r2, keyboard_set_brightness led_mc_calc_color_components scenario_firmware
          ⟨[], 0, []⟩ (scenario_globals [10, 20, 30, 40, 50, 60, 1, 2, 3, 70, 80, 90]) 2 128
          = some r
      ∧ hp_wmi_keyboard_set_colors scenario_firmware ⟨[get_colors_call 0], 0, []⟩ W = some r2
      ∧ r.ret = r2.ret
      ∧ (⟨[get_colors_call 0], 0, []⟩ : World).calls
          = (⟨[], 0, []⟩ : World).calls ++ [get_colors_call 0]
      ∧ r.world.calls = (⟨[get_colors_call 0], 0, []⟩ : World).calls ++ [set_colors_call W]
      ∧ (set_colors_call W).method_id = 2
      ∧ (set_colors_call W).input.signature = 0x55434553
      ∧ (set_colors_call W).input.command = 0x20009
      ∧ (set_colors_call W).input.commandtype = 3
      ∧ (set_colors_call W).input.datasize = 37
      ∧ (set_colors_call W).input.data.take 25 = scenario_message.take 25 :=
  ⟨by decide,
   keyboard_set_brightness_single_write led_mc_calc_color_components scenario_firmware
     ⟨[], 0, []⟩ (scenario_globals [10, 20, 30, 40, 50, 60, 1, 2, 3, 70, 80, 90]) 2 128
     scenario_message ⟨[get_colors_call 0], 0, []⟩
     (scenario_mirror [10, 20, 30, 40, 50, 60, 1, 2, 3, 70, 80, 90])
     (by decide) (by decide) (fun c => scenario_firmware_well_formed _ c)⟩

/-- C11: if the read of the colours inside `keyboard_set_brightness` fails (the transport
leaves no result, or a result that is not a buffer, or a buffer whose status is not zero),
the callback returns the error of that read, and the transport was called exactly once,
with the `get_zone_colors` request (command type 2): no `set_zone_colors` request is made. -/
theorem keyboard_set_brightness_failed_read (mapping : BrightnessMapping) (T : Firmware)
    (w : World) (g : Globals) (z brightness : Nat)
    (hT : T w.calls (get_colors_call 0) = none
      ∨ (∃ obj, T w.calls (get_colors_call 0) = some obj ∧ obj.type ≠ ACPI_TYPE_BUFFER)
      ∨ (∃ obj s, T w.calls (get_colors_call 0) = some obj ∧ obj.type = ACPI_TYPE_BUFFER
          ∧ return_code obj = some s ∧ s ≠ 0)) :
    ∃ q r, hp_wmi_keyboard_get_colors T w
          (List.replicate HP_WMI_KEYBOARD_COLOR_MESSAGE_SIZE 0) = some q
      ∧ keyboard_set_brightness mapping T w g z brightness = some r
      ∧ r.ret = q.ret ∧ r.ret ≠ 0
      ∧ r.world.calls = w.calls ++ [get_colors_call 0]
      ∧ (get_colors_call 0).input.commandtype = 2
      ∧ ∀ c, c ∈ r.world.calls → c ∉ w.calls → c.input.commandtype ≠ 3 := by
  have hne : -EINVAL ≠ 0 := by decide
  have hq : ∃ q, hp_wmi_keyboard_get_colors T w
        (List.replicate HP_WMI_KEYBOARD_COLOR_MESSAGE_SIZE 0) = some q
      ∧ q.ret ≠ 0 ∧ q.world.calls = w.calls ++ [get_colors_call 0] := by
    rw [get_colors_eq]
    rcases hT with hT | ⟨obj, hT, hty⟩ | ⟨obj, s, hT, hty, hrc, hs⟩
    · rw [hT]
      exact ⟨_, rfl, hne, rfl⟩
    · rw [hT, query_tail_not_buffer obj _ _ _ _ hty]
      exact ⟨_, rfl, hne, rfl⟩
    · rw [hT]
      obtain ⟨q, h1, _, h3, _, h5⟩ := query_tail_status obj (after_call w (get_colors_call 0))
        HP_WMI_LIGHTING_GET_ZONE_COLORS (List.replicate HP_WMI_KEYBOARD_COLOR_MESSAGE_SIZE 0)
        (HP_WMI_KEYBOARD_COLOR_MESSAGE_SIZE : Nat) s hty hrc hs
      exact ⟨q, h1, h3, h5⟩
  obtain ⟨q, h1, h2, h3⟩ := hq
  refine ⟨q, _, h1, keyboard_set_brightness_read_failed mapping T w g z brightness q h1 h2,
    rfl, h2, h3, rfl, ?_⟩
  intro c hc hnc
  have hc2 : c ∈ w.calls ++ [get_colors_call 0] := by
    rw [← h3]
    exact hc
  rcases List.mem_append.1 hc2 with h | h
  · exact absurd h hnc
  · rw [List.mem_singleton.1 h]
    decide

theorem keyboard_set_brightness_failed_read_witness :
    ∃ q r, hp_wmi_keyboard_get_colors (const_stub none) ⟨[], 0, []⟩
          (List.replicate HP_WMI_KEYBOARD_COLOR_MESSAGE_SIZE 0) = some q
      ∧ keyboard_set_brightness led_mc_calc_color_components (const_stub none) ⟨[], 0, []⟩
          (scenario_globals [10, 20, 30, 40, 50, 60, 1, 2, 3, 70, 80, 90]) 2 128 = some r
      ∧ r.ret = q.ret ∧ r.ret ≠ 0
      ∧ r.world.calls = (⟨[], 0, []⟩ : World).calls ++ [get_colors_call 0]
      ∧ (get_colors_call 0).input.commandtype = 2
      ∧ ∀ c, c ∈ r.world.calls → c ∉ (⟨[], 0, []⟩ : World).calls → c.input.commandtype ≠ 3 :=
  keyboard_set_brightness_failed_read led_mc_calc_color_components (const_stub none)
    ⟨[], 0, []⟩ (scenario_globals [10, 20, 30, 40, 50, 60, 1, 2, 3, 70, 80, 90]) 2 128
    (Or.inl rfl)

/-- C12: for every byte `v`, `hp_wmi_set_keyboard_brightness(v)` calls the transport exactly
once, with method selector 2 and the request of command `0x20009`, command type 5, data
size 4 and data `v` followed by 127 zero bytes; a second call with the same `v` sends the
same request again, whatever the transport answered to the first one. -/
theorem set_keyboard_brightness_request (T : Firmware) (w : World) (v : Nat) (hv : v < 256)
    (hwf : well_formed_result (T w.calls (set_brightness_call v))) :
    ∃ r, hp_wmi_set_keyboard_brightness T w v = some r
      ∧ r.world.calls = w.calls ++ [set_brightness_call v]
      ∧ (set_brightness_call v).method_id = 2
      ∧ (set_brightness_call v).input.signature = 0x55434553
      ∧ (set_brightness_call v).input.command = 0x20009
      ∧ (set_brightness_call v).input.commandtype = 5
      ∧ (set_brightness_call v).input.datasize = 4
      ∧ (set_brightness_call v).input.data = v :: List.replicate 127 0
      ∧ (well_formed_result (T r.world.calls (set_brightness_call v)) →
          ∃ r2, hp_wmi_set_keyboard_brightness T r.world v = some r2
            ∧ r2.world.calls = w.calls ++ [set_brightness_call v, set_brightness_call v]) := by
  obtain ⟨r, h1, h2⟩ := set_keyboard_brightness_eq T w v hv hwf
  refine ⟨r, h1, h2, rfl, rfl, rfl, rfl, rfl, rfl, ?_⟩
  intro hwf2
  obtain ⟨r2, h3, h4⟩ := set_keyboard_brightness_eq T r.world v hv hwf2
  refine ⟨r2, h3, ?_⟩
  rw [h4, h2]
  simp

theorem set_keyboard_brightness_request_witness :
    (200 : Nat) < 256 ∧
    ∃ r, hp_wmi_set_keyboard_brightness scenario_firmware ⟨[], 0, []⟩ 200 = some r
      ∧ r.world.calls = (⟨[], 0, []⟩ : World).calls ++ [set_brightness_call 200]
      ∧ (set_brightness_call 200).method_id = 2
      ∧ (set_brightness_call 200).input.signature = 0x55434553
      ∧ (set_brightness_call 200).input.command = 0x20009
      ∧ (set_brightness_call 200).input.commandtype = 5
      ∧ (set_brightness_call 200).input.datasize = 4
      ∧ (set_brightness_call 200).input.data = 200 :: List.replicate 127 0
      ∧ (well_formed_result (scenario_firmware r.world.calls (set_brightness_call 200)) →
          ∃ r2, hp_wmi_set_keyboard_brightness scenario_firmware r.world 200 = some r2
            ∧ r2.world.calls = (⟨[], 0, []⟩ : World).calls
                ++ [set_brightness_call 200, set_brightness_call 200]) :=
  ⟨by decide,
   set_keyboard_brightness_request scenario_firmware ⟨[], 0, []⟩ 200 (by decide)
     (scenario_firmware_well_formed _ _)⟩

/-- C14: for sizes in range and a transport result that is a buffer with the complete header
and status field `s`, `hp_wmi_perform_query` leaves one `pr_warn` line, for the query and the
returned code, exactly when `s` is not zero and is neither `0x03` (unknown command) nor `0x04`
(unknown command type); otherwise it leaves none. No `WARN_ON` fires on this path. -/
theorem perform_query_warning (T : Firmware) (w : World) (query : Int) (command : Nat)
    (buffer : List Nat) (insize outsize : Int) (obj : acpi_object) (s : Nat)
    (hi0 : 0 ≤ insize) (hin : insize ≤ 128) (hib : insize ≤ buffer.length)
    (ho0 : 0 ≤ outsize) (hout : outsize ≤ 4096) (hob : outsize ≤ buffer.length)
    (hT : T w.calls (query_call query command buffer insize outsize) = some obj)
    (ht : obj.type = ACPI_TYPE_BUFFER) (hL : obj.buffer.length < 2 ^ 31 + 8)
    (hrc : return_code obj = some s) :
    ∃ r, hp_wmi_perform_query T w query command buffer insize outsize = some r
      ∧ r.world.warn_on = w.warn_on
      ∧ r.world.pr_warn
          = (if s ≠ 0 ∧ s ≠ 3 ∧ s ≠ 4 then w.pr_warn ++ [(query, to_int s)] else w.pr_warn)
      ∧ (r.world.pr_warn.length = w.pr_warn.length + 1 ↔ (s ≠ 0 ∧ s ≠ 3 ∧ s ≠ 4))
      ∧ (r.world.pr_warn = w.pr_warn ↔ ¬ (s ≠ 0 ∧ s ≠ 3 ∧ s ≠ 4)) := by
  have h8 : 8 ≤ obj.buffer.length := by
    unfold return_code at hrc
    by_contra hc
    rw [if_neg hc] at hrc
    exact absurd hrc (by simp)
  rw [perform_query_eq T w query command buffer insize outsize hi0 hin hib hout, hT]
  by_cases h0 : s = 0
  · subst h0
    rw [query_tail_success obj _ query buffer outsize ht hrc h8 hL ho0 hout hob]
    refine ⟨_, rfl, rfl, ?_, ?_, ?_⟩
    · rw [if_neg (by simp)]
      rfl
    · show w.pr_warn.length = w.pr_warn.length + 1 ↔ _
      simp
    · show w.pr_warn = w.pr_warn ↔ _
      simp
  · rw [query_tail_status_eq obj _ query buffer outsize s ht hrc h0]
    by_cases hc : s ≠ 3 ∧ s ≠ 4
    · have hc2 : s ≠ 0 ∧ s ≠ 3 ∧ s ≠ 4 := ⟨h0, hc.1, hc.2⟩
      rw [if_pos hc]
      refine ⟨_, rfl, rfl, ?_, ?_, ?_⟩
      · rw [if_pos hc2]
        rfl
      · show (w.pr_warn ++ [(query, to_int s)]).length = w.pr_warn.length + 1 ↔ _
        simp [hc2]
      · show w.pr_warn ++ [(query, to_int s)] = w.pr_warn ↔ _
        simp [hc2]
    · have hc2 : ¬ (s ≠ 0 ∧ s ≠ 3 ∧ s ≠ 4) := fun h => hc ⟨h.2.1, h.2.2⟩
      rw [if_neg hc]
      refine ⟨_, rfl, rfl, ?_, ?_, ?_⟩
      · rw [if_neg hc2]
        rfl
      · show w.pr_warn.length = w.pr_warn.length + 1 ↔ _
        simp [hc2]
      · show w.pr_warn = w.pr_warn ↔ _
        simp [hc2]

theorem perform_query_warning_witness :
    ∃ r, hp_wmi_perform_query
          (const_stub (some ⟨ACPI_TYPE_BUFFER, [1, 2, 3, 4, 5, 0, 0, 0, 50, 60, 70]⟩))
          ⟨[], 0, []⟩ 2 HPWMI_LIGHTING [9, 8, 7] 1 3 = some r
      ∧ r.world.warn_on = (⟨[], 0, []⟩ : World).warn_on
      ∧ r.world.pr_warn
          = (if 5 ≠ 0 ∧ 5 ≠ 3 ∧ 5 ≠ 4 then
              (⟨[], 0, []⟩ : World).pr_warn ++ [((2 : Int), to_int 5)]
             else (⟨[], 0, []⟩ : World).pr_warn)
      ∧ (r.world.pr_warn.length = (⟨[], 0, []⟩ : World).pr_warn.length + 1
          ↔ (5 ≠ 0 ∧ 5 ≠ 3 ∧ 5 ≠ 4))
      ∧ (r.world.pr_warn = (⟨[], 0, []⟩ : World).pr_warn ↔ ¬ (5 ≠ 0 ∧ 5 ≠ 3 ∧ 5 ≠ 4)) :=
  perform_query_warning
    (const_stub (some ⟨ACPI_TYPE_BUFFER, [1, 2, 3, 4, 5, 0, 0, 0, 50, 60, 70]⟩))
    ⟨[], 0, []⟩ 2 HPWMI_LIGHTING [9, 8, 7] 1 3
    ⟨ACPI_TYPE_BUFFER, [1, 2, 3, 4, 5, 0, 0, 0, 50, 60, 70]⟩ 5
    (by decide) (by decide) (by decide) (by decide) (by decide) (by decide) rfl rfl
    (by decide) (by decide)

/-- C15: for `0 ≤ insize ≤ 128` and `0 ≤ outsize ≤ 4096` (both held by the caller's buffer,
and a transport answer the driver can decode), `hp_wmi_perform_query` calls the transport
exactly once, with method selector `encode_outsize_for_pvsz(outsize)` and a request of 144
bytes: `signature = 0x55434553`, `command = c`, `commandtype = q` (as `u32`),
`datasize = insize`, `data[0 .. insize) = buffer[0 .. insize)` and `data[insize .. 128)` all
zero. -/
theorem perform_query_request (T : Firmware) (w : World) (q : Int) (c : Nat)
    (buffer : List Nat) (insize outsize : Int)
    (hi0 : 0 ≤ insize) (hin : insize ≤ 128) (hib : insize ≤ buffer.length)
    (ho0 : 0 ≤ outsize) (hout : outsize ≤ 4096) (hob : outsize ≤ buffer.length)
    (hwf : well_formed_result (T w.calls (query_call q c buffer insize outsize))) :
    ∃ r call, hp_wmi_perform_query T w q c buffer insize outsize = some r
      ∧ r.world.calls = w.calls ++ [call]
      ∧ call.method_id = encode_outsize_for_pvsz outsize
      ∧ (bios_args_bytes call.input).length = 144
      ∧ call.input.signature = 0x55434553
      ∧ call.input.command = c
      ∧ call.input.commandtype = to_u32 q
      ∧ (0 ≤ q → q < 2 ^ 32 → (call.input.commandtype : Int) = q)
      ∧ (call.input.datasize : Int) = insize
      ∧ call.input.data.length = 128
      ∧ call.input.data.take insize.toNat = buffer.take insize.toNat
      ∧ call.input.data.drop insize.toNat = List.replicate (128 - insize.toNat) 0 := by
  obtain ⟨n, rfl⟩ := Int.eq_ofNat_of_zero_le hi0
  have hn : ((n : Nat) : Int).toNat = n := by omega
  have hnb : n ≤ buffer.length := by omega
  have hlen : (buffer.take n).length = n := by
    rw [List.length_take]; omega
  obtain ⟨r, hr⟩ := query_tail_defined (T w.calls (query_call q c buffer n outsize))
    (after_call w (query_call q c buffer n outsize)) q buffer outsize hwf ho0 hout hob
  obtain ⟨_, hc, _⟩ := query_tail_frame hr
  rw [← perform_query_eq T w q c buffer n outsize hi0 hin hib hout] at hr
  have hdl : (query_call q c buffer n outsize).input.data.length = 128 := by
    show (buffer.take ((n : Nat) : Int).toNat
      ++ List.replicate (128 - ((n : Nat) : Int).toNat) 0).length = 128
    rw [hn, List.length_append, hlen, List.length_replicate]
    omega
  refine ⟨r, query_call q c buffer n outsize, hr, hc, rfl, ?_, rfl, rfl, rfl, ?_, ?_, hdl,
    ?_, ?_⟩
  · show (u32_bytes _ ++ u32_bytes _ ++ u32_bytes _ ++ u32_bytes _
      ++ (query_call q c buffer n outsize).input.data).length = 144
    rw [List.length_append, hdl]
    rfl
  · intro h0 h1
    show ((to_u32 q : Nat) : Int) = q
    rw [to_u32_of_nonneg h0 h1]
    omega
  · show ((((n : Nat) : Int).toNat : Nat) : Int) = n
    rw [hn]
  · show (buffer.take ((n : Nat) : Int).toNat
      ++ List.replicate (128 - ((n : Nat) : Int).toNat) 0).take ((n : Nat) : Int).toNat = _
    rw [hn, List.take_append_of_le_length (by omega), List.take_of_length_le (by omega)]
  · show (buffer.take ((n : Nat) : Int).toNat
      ++ List.replicate (128 - ((n : Nat) : Int).toNat) 0).drop ((n : Nat) : Int).toNat = _
    rw [hn, List.drop_append_eq_append_drop, List.drop_of_length_le (by omega), hlen,
      Nat.sub_self, List.drop_zero, List.nil_append]

theorem perform_query_request_witness :
    ∃ r call, hp_wmi_perform_query scenario_firmware ⟨[], 0, []⟩ 3 HPWMI_LIGHTING
          [9, 8, 7] 2 1 = some r
      ∧ r.world.calls = (⟨[], 0, []⟩ : World).calls ++ [call]
      ∧ call.method_id = encode_outsize_for_pvsz 1
      ∧ (bios_args_bytes call.input).length = 144
      ∧ call.input.signature = 0x55434553
      ∧ call.input.command = HPWMI_LIGHTING
      ∧ call.input.commandtype = to_u32 3
      ∧ ((0 : Int) ≤ 3 → (3 : Int) < 2 ^ 32 → (call.input.commandtype : Int) = 3)
      ∧ (call.input.datasize : Int) = 2
      ∧ call.input.data.length = 128
      ∧ call.input.data.take (2 : Int).toNat = List.take (2 : Int).toNat [9, 8, 7]
      ∧ call.input.data.drop (2 : Int).toNat = List.replicate (128 - (2 : Int).toNat) 0 :=
  perform_query_request scenario_firmware ⟨[], 0, []⟩ 3 HPWMI_LIGHTING [9, 8, 7] 2 1
    (by decide) (by decide) (by decide) (by decide) (by decide) (by decide)
    (scenario_firmware_well_formed _ _)

set_option maxRecDepth 100000 in
/-- C16 (evaluation at the failing input): when the firmware answers with the status
`0xFFFFFFEA`, `hp_wmi_perform_query` returns `-EINVAL`, the very value it returns without
calling the transport when `insize` is 129. -/
theorem perform_query_status_collides_with_einval :
    (hp_wmi_perform_query
        (const_stub (some ⟨ACPI_TYPE_BUFFER, [0, 0, 0, 0, 0xEA, 0xFF, 0xFF, 0xFF]⟩))
        ⟨[], 0, []⟩ 1 HPWMI_LIGHTING [0] 1 1).map (fun r => (r.ret, r.world.calls.length))
      = some (-EINVAL, 1)
    ∧ return_code ⟨ACPI_TYPE_BUFFER, [0, 0, 0, 0, 0xEA, 0xFF, 0xFF, 0xFF]⟩
      = some 0xFFFFFFEA
    ∧ (hp_wmi_perform_query
        (const_stub (some ⟨ACPI_TYPE_BUFFER, [0, 0, 0, 0, 0xEA, 0xFF, 0xFF, 0xFF]⟩))
        ⟨[], 0, []⟩ 1 HPWMI_LIGHTING (List.replicate 129 0) 129 1).map
          (fun r => (r.ret, r.world.calls.length))
      = some (-EINVAL, 0) := by
  decide

/-- C18: when the read succeeds, every colour byte of the message handed to
`set_zone_colors`, for every zone `i` in `0 .. 3` and channel `c` in `0 .. 2` (not only for
the zone of the callback), is the mirror's subled brightness of zone `i`, channel `c`, as it
stands after the host mapping, reduced modulo 256. -/
theorem keyboard_set_brightness_writes_mirror (mapping : BrightnessMapping) (T : Firmware)
    (w : World) (g : Globals) (z brightness : Nat) (M : List Nat) (w1 : World)
    (m : Nat → Nat → Nat)
    (hget : hp_wmi_keyboard_get_colors T w
      (List.replicate HP_WMI_KEYBOARD_COLOR_MESSAGE_SIZE 0) = some ⟨0, M, w1⟩)
    (hm : ∀ i, i < 4 → ∀ c, c < 3 →
      subled_brightness (mapping g z brightness) i c = some (m i c))
    (hwf : ∀ c, well_formed_result (T w1.calls c)) :
    ∃ r W, keyboard_set_brightness mapping T w g z brightness = some r
      ∧ r.world.calls = w.calls ++ [get_colors_call 0, set_colors_call W]
      ∧ r.globals = mapping g z brightness
      ∧ ∀ i, i < 4 → ∀ c, c < 3 →
          subled_brightness r.globals i c = some (m i c)
          ∧ W[25 + 3 * i + c]? = some (m i c % 256)
          ∧ (set_colors_call W).input.data[25 + 3 * i + c]? = some (m i c % 256) := by
  obtain ⟨r, r2, h1, _, _, _, h5, h6⟩ :=
    keyboard_set_brightness_eq mapping T w g z brightness M w1 m hget hm hwf
  obtain ⟨hlen, _⟩ := get_colors_success hget
  have hWlen : (written_message M m).length = 37 := by rw [written_message_length, hlen]
  refine ⟨r, written_message M m, h1, h6, h5, ?_⟩
  intro i hi c hc
  refine ⟨by rw [h5]; exact hm i hi c hc, written_message_zone M m hlen i c hi hc, ?_⟩
  show (written_message M m ++ _)[25 + 3 * i + c]? = _
  rw [List.getElem?_append_left (by omega)]
  exact written_message_zone M m hlen i c hi hc

set_option maxRecDepth 100000 in
theorem keyboard_set_brightness_writes_mirror_witness :
    ∃ r W, keyboard_set_brightness led_mc_calc_color_components scenario_firmware
          ⟨[], 0, []⟩ (scenario_globals [11, 20, 30, 40, 50, 60, 1, 2, 3, 70, 80, 90]) 2 128
          = some r
      ∧ r.world.calls
          = (⟨[], 0, []⟩ : World).calls ++ [get_colors_call 0, set_colors_call W]
      ∧ r.globals = led_mc_calc_color_components
          (scenario_globals [11, 20, 30, 40, 50, 60, 1, 2, 3, 70, 80, 90]) 2 128
      ∧ ∀ i, i < 4 → ∀ c, c < 3 →
          subled_brightness r.globals i c
            = some (scenario_mirror [11, 20, 30, 40, 50, 60, 1, 2, 3, 70, 80, 90] i c)
          ∧ W[25 + 3 * i + c]?
            = some (scenario_mirror [11, 20, 30, 40, 50, 60, 1, 2, 3, 70, 80, 90] i c % 256)
          ∧ (set_colors_call W).input.data[25 + 3 * i + c]?
            = some (scenario_mirror [11, 20, 30, 40, 50, 60, 1, 2, 3, 70, 80, 90] i c % 256) :=
  keyboard_set_brightness_writes_mirror led_mc_calc_color_components scenario_firmware
    ⟨[], 0, []⟩ (scenario_globals [11, 20, 30, 40, 50, 60, 1, 2, 3, 70, 80, 90]) 2 128
    scenario_message ⟨[get_colors_call 0], 0, []⟩
    (scenario_mirror [11, 20, 30, 40, 50, 60, 1, 2, 3, 70, 80, 90])
    (by decide) (by decide) (fun c => scenario_firmware_well_formed _ c)

/-- C19: on the success path with `0 < outsize ≤ 4096` and a result of length `L`,
`8 ≤ L < 2^31`, the copy length `actual_outsize = min(outsize, (int)(L - 8))` is
`min(outsize, L - 8)` and lies in `0 .. outsize`; the copy reads result bytes inside
`[8, L)`, and the copy and the zero-fill both stay inside the objects and rewrite exactly
`buffer[0 .. outsize)`. The bound `L ≥ 8` is needed: for `L < 8` the computed length is
`L - 8`, a negative number. -/
theorem actual_outsize_in_bounds (outsize : Int) (L : Nat)
    (ho : 0 < outsize) (hout : outsize ≤ 4096) (h8 : 8 ≤ L) (hL : L < 2 ^ 31) :
    actual_outsize outsize L = min outsize ((L : Int) - 8)
      ∧ 0 ≤ actual_outsize outsize L
      ∧ actual_outsize outsize L ≤ outsize
      ∧ 8 + actual_outsize outsize L ≤ L
      ∧ (∀ buffer result : List Nat, result.length = L → outsize ≤ buffer.length →
          ∃ b1 b2,
            memcpy buffer 0 (result.drop 8) (to_size_t (actual_outsize outsize L)) = some b1
            ∧ memset b1 (actual_outsize outsize L) 0
                (to_size_t (outsize - actual_outsize outsize L)) = some b2
            ∧ b2.length = buffer.length
            ∧ b2.drop outsize.toNat = buffer.drop outsize.toNat
            ∧ b2.take outsize.toNat
                = (result.drop 8).take (actual_outsize outsize L).toNat
                  ++ List.replicate (outsize.toNat - (actual_outsize outsize L).toNat) 0)
      ∧ ∀ L2 : Nat, L2 < 8 →
          actual_outsize outsize L2 = (L2 : Int) - 8 ∧ actual_outsize outsize L2 < 0 := by
  have ha : actual_outsize outsize L = min outsize ((L - 8 : Nat) : Int) :=
    actual_outsize_eq outsize L h8 (by omega)
  obtain ⟨n, rfl⟩ := Int.eq_ofNat_of_zero_le (show (0 : Int) ≤ outsize by omega)
  have hmin : min (n : Int) ((L - 8 : Nat) : Int) = ((min n (L - 8) : Nat) : Int) := by omega
  rw [hmin] at ha
  set k := min n (L - 8) with hk
  have hkn : k ≤ n := by omega
  rw [ha]
  refine ⟨by omega, by omega, by omega, by omega, ?_, ?_⟩
  · intro buffer result hres hbuf
    have hnb : n ≤ buffer.length := by omega
    have e1 : ((k : Nat) : Int).toNat = k := by omega
    have e2 : ((n : Int) - (k : Int)).toNat = n - k := by omega
    have e3 : ((n : Nat) : Int).toNat = n := by omega
    have hlen : ((result.drop 8).take k).length = k := by
      rw [List.length_take, List.length_drop]; omega
    rw [to_size_t_of_nonneg (by omega) (by omega), to_size_t_of_nonneg (by omega) (by omega),
      e1, e2, e3]
    obtain ⟨b1, b2, hb1, hb2, hb⟩ := copy_and_fill buffer (result.drop 8) k n hkn
      (by rw [List.length_drop]; omega) hnb
    refine ⟨b1, b2, hb1, hb2, ?_, ?_, ?_⟩
    · rw [hb, List.length_append, List.length_append, hlen, List.length_replicate,
        List.length_drop]
      omega
    · rw [hb, List.drop_append_eq_append_drop, List.drop_of_length_le (by
        rw [List.length_append, hlen, List.length_replicate]; omega),
        List.length_append, hlen, List.length_replicate, List.nil_append]
      have : n - (k + (n - k)) = 0 := by omega
      rw [this, List.drop_zero]
    · rw [hb, List.take_append_of_le_length (by
        rw [List.length_append, hlen, List.length_replicate]; omega),
        List.take_of_length_le (by
        rw [List.length_append, hlen, List.length_replicate]; omega)]
  · intro L2 hL2
    have h := actual_outsize_of_short (n : Int) L2 (by omega) hL2
    exact ⟨h, by rw [h]; omega⟩

theorem actual_outsize_in_bounds_witness :
    (0 : Int) < 37 ∧ (37 : Int) ≤ 4096 ∧ 8 ≤ 20 ∧ 20 < 2 ^ 31
    ∧ actual_outsize 37 20 = 12 ∧ actual_outsize 37 7 = -1 :=
  ⟨by decide, by decide, by decide, by decide,
   (actual_outsize_in_bounds 37 20 (by decide) (by decide) (by decide) (by decide)).1.trans
     (by decide),
   ((actual_outsize_in_bounds 37 20 (by decide) (by decide) (by decide) (by decide)).2.2.2.2.2
     7 (by decide)).1.trans (by decide)⟩

/-- C20: for a negative `insize` (an `int`) and `outsize ≤ 4096`, the size check, which
compares `insize` as an unsigned quantity with the capacity 128, rejects the call:
`hp_wmi_perform_query` returns `-EINVAL`, makes no transport call and does not read the
caller's buffer (the outcome is the same for every buffer, the empty one included). -/
theorem perform_query_negative_insize (T : Firmware) (w : World) (query : Int)
    (command : Nat) (buffer : List Nat) (insize outsize : Int)
    (hneg : insize < 0) (hmin : -2147483648 ≤ insize) (hout : outsize ≤ 4096) :
    to_size_t insize > 128
      ∧ (∃ r, hp_wmi_perform_query T w query command buffer insize outsize = some r
          ∧ r.ret = -EINVAL ∧ r.world.calls = w.calls ∧ r.buffer = buffer
          ∧ ∀ buffer2 : List Nat,
              hp_wmi_perform_query T w query command buffer2 insize outsize
                = some ⟨r.ret, buffer2, r.world⟩)
      ∧ ∃ r0, hp_wmi_perform_query T w query command [] insize outsize = some r0
          ∧ r0.ret = -EINVAL ∧ r0.world.calls = w.calls := by
  refine ⟨to_size_t_neg_gt hneg hmin, ⟨_, perform_query_insize_negative_eq T w query command
    buffer insize outsize hneg hmin hout, rfl, rfl, rfl, ?_⟩, ⟨_,
    perform_query_insize_negative_eq T w query command [] insize outsize hneg hmin hout,
    rfl, rfl⟩⟩
  intro buffer2
  exact perform_query_insize_negative_eq T w query command buffer2 insize outsize hneg hmin
    hout

theorem perform_query_negative_insize_witness :
    (-1 : Int) < 0 ∧ (-2147483648 : Int) ≤ -1 ∧ (37 : Int) ≤ 4096
    ∧ to_size_t (-1) > 128
      ∧ (∃ r, hp_wmi_perform_query scenario_firmware ⟨[], 0, []⟩ 2 HPWMI_LIGHTING [9, 8, 7]
            (-1) 37 = some r
          ∧ r.ret = -EINVAL ∧ r.world.calls = (⟨[], 0, []⟩ : World).calls
          ∧ r.buffer = [9, 8, 7]
          ∧ ∀ buffer2 : List Nat,
              hp_wmi_perform_query scenario_firmware ⟨[], 0, []⟩ 2 HPWMI_LIGHTING buffer2
                (-1) 37 = some ⟨r.ret, buffer2, r.world⟩)
      ∧ ∃ r0, hp_wmi_perform_query scenario_firmware ⟨[], 0, []⟩ 2 HPWMI_LIGHTING []
            (-1) 37 = some r0
          ∧ r0.ret = -EINVAL ∧ r0.world.calls = (⟨[], 0, []⟩ : World).calls :=
  ⟨by decide, by decide, by decide,
   perform_query_negative_insize scenario_firmware ⟨[], 0, []⟩ 2 HPWMI_LIGHTING [9, 8, 7]
     (-1) 37 (by decide) (by decide) (by decide)⟩

/-- C13 (amended): when the GUID is present and the probe yields "unsupported" (the flag it
leaves is 0), `hp_wmi_init` registers no zone, leaves the support flag 0, makes no transport
call beyond the probe, and returns what the probe returned: 0 when the probe query
succeeded, its error code when it failed. -/
theorem hp_wmi_init_unsupported (register : Registration) (T : Firmware) (w : World)
    (g : Globals) (led_data : List Nat)
    (hwf : well_formed_result (T w.calls (platform_info_call g.keyboard_led_support)))
    (hflag : ∀ p, hp_wmi_check_rgb_keyboard_support T w [g.keyboard_led_support] = some p →
      p.buffer = [0]) :
    ∃ p r, hp_wmi_check_rgb_keyboard_support T w [g.keyboard_led_support] = some p
      ∧ hp_wmi_init true register T w g led_data = some r
      ∧ r.registered = []
      ∧ r.globals.keyboard_led_support = 0
      ∧ r.world = p.world
      ∧ r.ret = p.ret
      ∧ (p.ret = 0 → r.ret = 0)
      ∧ (p.ret ≠ 0 → r.ret ≠ 0) := by
  obtain ⟨p, hp⟩ := check_rgb_keyboard_support_defined T w g.keyboard_led_support hwf
  have hb := hflag p hp
  refine ⟨p, ⟨p.ret, { g with keyboard_led_support := 0 }, p.world, []⟩, hp, ?_, rfl, rfl, rfl,
    rfl, fun h => h, fun h => h⟩
  unfold hp_wmi_init
  simp [hp, hb]

set_option maxRecDepth 100000 in
/-- C13, as stated, fails: when the transport leaves no result, the probe fails with
`-EINVAL`, the flag is forced to 0, no zone is registered, and `hp_wmi_init` returns
`-EINVAL`, not 0. -/
theorem hp_wmi_init_unsupported_counterexample :
    (hp_wmi_check_rgb_keyboard_support (const_stub none) ⟨[], 0, []⟩
        [initial_globals.keyboard_led_support]).map (fun p => (p.ret, p.buffer))
      = some (-EINVAL, [0])
    ∧ (hp_wmi_init true (fun _ => 0) (const_stub none) ⟨[], 0, []⟩ initial_globals
        (List.replicate 37 0)).map (fun r => (r.ret, r.registered))
      = some (-EINVAL, [])
    ∧ -EINVAL ≠ 0 := by
  decide

set_option maxRecDepth 100000 in
theorem hp_wmi_init_unsupported_witness :
    ∃ p r, hp_wmi_check_rgb_keyboard_support scenario_firmware ⟨[], 0, []⟩
          [initial_globals.keyboard_led_support] = some p
      ∧ hp_wmi_init true (fun _ => 0) scenario_firmware ⟨[], 0, []⟩ initial_globals
          (List.replicate 37 0) = some r
      ∧ r.registered = []
      ∧ r.globals.keyboard_led_support = 0
      ∧ r.world = p.world
      ∧ r.ret = p.ret
      ∧ (p.ret = 0 → r.ret = 0)
      ∧ (p.ret ≠ 0 → r.ret ≠ 0) :=
  hp_wmi_init_unsupported (fun _ => 0) scenario_firmware ⟨[], 0, []⟩ initial_globals
    (List.replicate 37 0) (scenario_firmware_well_formed _ _)
    (by
      intro p hp
      have h : hp_wmi_check_rgb_keyboard_support scenario_firmware ⟨[], 0, []⟩
          [initial_globals.keyboard_led_support]
          = some ⟨0, [0], ⟨[platform_info_call 0], 0, []⟩⟩ := by decide
      rw [h] at hp
      rw [← Option.some.inj hp])

/-- What `setup_leds` does when the registration succeeds for the zones before `k` and fails
for zone `k`: the loop stops there, `setup_leds` returns the error of that registration, the
zones from `k` on are not registered, and the registered zones are `0 .. k-1`; none of them
is unregistered. -/
theorem setup_leds_registration_failure (register : Registration) (T : Firmware) (w : World)
    (g : Globals) (led_data M : List Nat) (w1 : World) (k : Nat)
    (hget : hp_wmi_keyboard_get_colors T w led_data = some ⟨0, M, w1⟩)
    (hleds : g.keyboard_leds.length = 4) (hsubs : g.keyboard_subleds.length = 12)
    (hdata : led_data.length = 37)
    (hk : k < 4) (hok : ∀ i, i < k → register i = 0) (hfail : register k ≠ 0) :
    ∃ s, setup_leds register T w g [] led_data = some s
      ∧ s.ret = register k ∧ s.ret ≠ 0
      ∧ s.registered = List.range k
      ∧ (∀ j, k ≤ j → j ∉ s.registered)
      ∧ (∀ i, i < k → i ∈ s.registered) := by
  have hM : M.length = 37 := get_colors_length hdata hget
  obtain ⟨g1, hloop⟩ := setup_leds_loop_fail register M hM k hfail 4 0 g [] (by omega)
    (by omega) (by omega) (fun j _ hj => hok j hj) hleds hsubs
  have hr : ([] : List Nat) ++ List.range' 0 (k - 0) = List.range k := by
    rw [List.nil_append, Nat.sub_zero, List.range_eq_range']
  rw [hr] at hloop
  refine ⟨⟨register k, g1, w1, List.range k⟩, ?_, rfl, hfail, rfl, ?_, ?_⟩
  · unfold setup_leds
    simp only [hget]
    rw [if_neg (by simp)]
    show (match setup_leds_loop register M 0 4 g [] with
      | none => none
      | some (rc, g1, regs) => some (⟨rc, g1, w1, regs⟩ : DriverResult)) = _
    rw [hloop]
  · intro j hj hmem
    have := List.mem_range.1 hmem
    omega
  · intro i hi
    exact List.mem_range.2 hi

set_option maxRecDepth 100000 in
/-- C17 (evaluation at the failing input): with lighting supported and the registration of
zone 1 failing with `-ENOMEM`, `setup_leds` returns `-12` while zone 0 is still registered;
`hp_wmi_init` drops that result and returns 0, zone 0 still registered. -/
theorem setup_leds_failure_leaves_zone_registered :
    (setup_leds (failing_registration 1) scenario_firmware_rgb ⟨[], 0, []⟩ initial_globals []
        (List.replicate 37 0)).map (fun s => (s.ret, s.registered))
      = some (-12, [0])
    ∧ (hp_wmi_init true (failing_registration 1) scenario_firmware_rgb ⟨[], 0, []⟩
        initial_globals (List.replicate 37 0)).map (fun r => (r.ret, r.registered))
      = some (0, [0]) := by
  decide

set_option maxRecDepth 100000 in
theorem setup_leds_registration_failure_example :
    ∃ s, setup_leds (failing_registration 2) scenario_firmware_rgb ⟨[], 0, []⟩
          initial_globals [] (List.replicate 37 0) = some s
      ∧ s.ret = failing_registration 2 2 ∧ s.ret ≠ 0
      ∧ s.registered = List.range 2
      ∧ (∀ j, 2 ≤ j → j ∉ s.registered)
      ∧ (∀ i, i < 2 → i ∈ s.registered) :=
  setup_leds_registration_failure (failing_registration 2) scenario_firmware_rgb ⟨[], 0, []⟩
    initial_globals (List.replicate 37 0) scenario_message ⟨[get_colors_call 0], 0, []⟩ 2
    (by decide) (by decide) (by decide) (by decide) (by decide) (by decide) (by decide)

end HpOmen
